import Mathlib

/-!
Verification of the enrichment-triage core (triage.py, biofit.py,
program_summarizer.py).

Modelling conventions:
* Python floats are modelled as real numbers (`ℝ`) where transcendental
  functions (`log`, `exp`) occur, and as exact rationals (`ℚ`) in the purely
  arithmetic layers (Jaccard similarity, BioFit, program assignment), since
  every IEEE float is a rational number.
* Gene symbols and terms are strings, as in the source.
* Compiled regular expressions over gene symbols are embedded as boolean
  predicates on strings (`String → Bool`); the concrete default patterns
  (all of the shape `^LIT`, `^LIT$`, `^LIT\d`, `^LIT\d+` under IGNORECASE)
  are realised by the helpers `reExact`, `rePre`, `rePreD`.
* `pandas` cells are modelled by an explicit `Cell` type; non-finite floats
  and unparsable values are modelled as `Cell.null`, which `safeFloat`
  sends to `none`, matching `_safe_float`'s treatment of NaN/inf.
-/

namespace Enrich

/-- `np.clip(x, lo, hi)` = `min (max x lo) hi`. -/
def clip {α : Type*} [LinearOrder α] (lo hi x : α) : α := min (max x lo) hi

theorem clip_mem {α : Type*} [LinearOrder α] {lo hi : α} (h : lo ≤ hi) (x : α) :
    lo ≤ clip lo hi x ∧ clip lo hi x ≤ hi := by
  constructor
  · exact le_min (le_max_right _ _) h
  · exact min_le_right _ _

theorem clip_mono {α : Type*} [LinearOrder α] (lo hi : α) {x y : α} (h : x ≤ y) :
    clip lo hi x ≤ clip lo hi y :=
  min_le_min (max_le_max h le_rfl) le_rfl

/-- `str.lower()`, written via `List Char` so that it evaluates in the
kernel. -/
def lowerStr (s : String) : String := String.mk (s.data.map Char.toLower)

/-- `str.upper()`, written via `List Char` so that it evaluates in the
kernel. -/
def upperStr (s : String) : String := String.mk (s.data.map Char.toUpper)

/-- Lowercasing, `_ → " "`, whitespace collapse and strip: `_norm_text`. -/
def normText (s : String) : String :=
  String.intercalate (" ")
    ((((lowerStr s).replace ("_") (" ")).split Char.isWhitespace).filter (fun t => t ≠ ""))

/-- Substring test: does `needle` occur inside `hay`?  (Python `p in t`.) -/
def substrOf (needle hay : String) : Bool :=
  (hay.toList.tails).any (fun t => needle.toList.isPrefixOf t)

/-- `_has_any(text, patterns)`. -/
def hasAny (text : String) (patterns : List String) : Bool :=
  patterns.any (fun p => substrOf p (normText text))

/-- `_count_any(text, patterns)`. -/
def countAny (text : String) (patterns : List String) : ℕ :=
  (patterns.filter (fun p => substrOf p (normText text))).length

/-- `_clip01`. -/
def clip01 (x : ℚ) : ℚ := clip 0 1 x

/-- Zero-padded decimal rendering, Python `f"{n:0{width}d}"` for `n ≥ 0`. -/
def padNum (width : ℕ) (n : ℕ) : String :=
  let s := toString n
  String.mk (List.replicate (width - s.length) ('0')) ++ s

/-- Order-preserving de-duplication used by `parse_genes`. -/
def dedupAux : List String → List String → List String
  | [], _ => []
  | g :: gs, seen => if g ∈ seen then dedupAux gs seen else g :: dedupAux gs (g :: seen)

/-- De-dupe while preserving order. -/
def dedup (l : List String) : List String := dedupAux l []

/-! ## Jaccard similarity (triage.py, `jaccard`) -/

/-- `jaccard(a, b)` over gene sets, exactly as in the source:
`1.0` when both are empty, `0.0` when exactly one is empty,
otherwise `|a ∩ b| / |a ∪ b|` (with the source's guard against a zero
denominator).  The quotient is written `mkRat`, which equals the field
division `(↑card / ↑card : ℚ)` (see `mkRat_card_eq_div`) but also reduces
inside the kernel on concrete inputs. -/
def jaccard (a b : Finset String) : ℚ :=
  if a = ∅ ∧ b = ∅ then 1
  else if a = ∅ ∨ b = ∅ then 0
  else if (a ∪ b).card = 0 then 0
  else mkRat ((a ∩ b).card : ℤ) ((a ∪ b).card)

theorem mkRat_card_eq_div (p q : ℕ) : mkRat (p : ℤ) q = ((p : ℚ) / (q : ℚ)) := by
  rw [Rat.mkRat_eq_div]
  push_cast
  rfl

theorem jaccard_comm (a b : Finset String) : jaccard a b = jaccard b a := by
  unfold jaccard
  rw [Finset.inter_comm, Finset.union_comm]
  by_cases ha : a = ∅ <;> by_cases hb : b = ∅ <;> simp [ha, hb]

theorem jaccard_nonneg (a b : Finset String) : 0 ≤ jaccard a b := by
  unfold jaccard
  split
  · norm_num
  · split
    · norm_num
    · split
      · norm_num
      · rw [mkRat_card_eq_div]
        positivity

theorem jaccard_le_one (a b : Finset String) : jaccard a b ≤ 1 := by
  unfold jaccard
  split
  · norm_num
  · split
    · norm_num
    · split
      · norm_num
      · rename_i h0
        rw [mkRat_card_eq_div, div_le_one (by positivity)]
        exact_mod_cast Finset.card_le_card (Finset.inter_subset_union)

theorem jaccard_empty_left {a : Finset String} (h : a ≠ ∅) : jaccard ∅ a = 0 := by
  unfold jaccard
  simp [h]

theorem jaccard_empty_right {a : Finset String} (h : a ≠ ∅) : jaccard a ∅ = 0 := by
  rw [jaccard_comm]; exact jaccard_empty_left h

theorem jaccard_self (a : Finset String) : jaccard a a = 1 := by
  unfold jaccard
  by_cases ha : a = ∅
  · simp [ha]
  · have hc : a.card ≠ 0 := by
      simpa [Finset.card_eq_zero] using ha
    simp only [Finset.inter_self, Finset.union_self]
    simp [ha, hc, mkRat_card_eq_div, div_self (by exact_mod_cast hc : (a.card : ℚ) ≠ 0)]

/-- Merging a row's gene set into a cluster union never lowers that row's
similarity to the cluster: `jaccard g (u ∪ g) ≥ jaccard g u`. -/
theorem jaccard_union_self_ge (g u : Finset String) :
    jaccard g u ≤ jaccard g (u ∪ g) := by
  by_cases hg : g = ∅
  · subst hg
    simp [Finset.union_empty]
  · by_cases hu : u = ∅
    · subst hu
      rw [jaccard_empty_right hg, Finset.empty_union, jaccard_self]
      norm_num
    · have hug : u ∪ g ≠ ∅ := by
        intro h
        exact hu (by simpa using (Finset.union_eq_empty.mp h).1)
      have hgu : g ∪ (u ∪ g) = g ∪ u := by
        rw [Finset.union_comm u g, ← Finset.union_assoc, Finset.union_self]
      have hgi : g ∩ (u ∪ g) = g := by
        rw [Finset.inter_comm, Finset.union_inter_cancel_right]
      have hcard : (g ∪ u).card ≠ 0 := by
        simp only [ne_eq, Finset.card_eq_zero, Finset.union_eq_empty, not_and]
        intro h; exact absurd h hg
      have hL : jaccard g u = (((g ∩ u).card : ℚ) / ((g ∪ u).card : ℚ)) := by
        unfold jaccard
        rw [if_neg (by simp [hg]), if_neg (by simp [hg, hu]), if_neg hcard,
          mkRat_card_eq_div]
      have hR : jaccard g (u ∪ g) = ((g.card : ℚ) / ((g ∪ u).card : ℚ)) := by
        unfold jaccard
        rw [if_neg (by simp [hg]), if_neg (by simp [hg, hug]), hgu, hgi,
          if_neg hcard, mkRat_card_eq_div]
      rw [hL, hR]
      gcongr
      exact Finset.inter_subset_left

/-! ## Triage scoring (triage.py, `_neglog10_p`, `_log1p_clip`,
`overlap_weight`, `triage_score`) -/

/-- `_neglog10_p`: `0` on null, else `-log10 (max p 1e-300)`. -/
noncomputable def neglog10P : Option ℝ → ℝ
  | none => 0
  | some p => -(Real.logb 10 (max p 1e-300))

/-- `_log1p_clip(x, lo, hi)`: `0` on null, else `clip lo hi (log (1 + max x 0))`. -/
noncomputable def log1pClip (x : Option ℝ) (lo hi : ℝ) : ℝ :=
  match x with
  | none => 0
  | some v => clip lo hi (Real.log (1 + max v 0))

/-- `overlap_weight(k)`: `0` for `k ≤ 0`, else `clip(1 - exp(-k/3), 0, 1)`. -/
noncomputable def overlap_weight (k : ℤ) : ℝ :=
  if k ≤ 0 then 0 else clip 0 1 (1 - Real.exp (-(k : ℝ) / 3))

/-- `triage_score(padj, odds_ratio, combined_score, overlap_k)`:
`clip(((1.2*stat + 0.9*or_term + 0.6*cs_term) * (0.35 + 0.65*ow)) * 8, 0, 100)`. -/
noncomputable def triage_score (padj oddsRat combScore : Option ℝ) (overlapK : ℤ) : ℝ :=
  clip 0 100
    (((1.2 * neglog10P padj + 0.9 * log1pClip oddsRat 0 6
        + 0.6 * log1pClip combScore 0 8)
      * (0.35 + 0.65 * overlap_weight overlapK)) * 8)

theorem log1pClip_nonneg (x : Option ℝ) (hi : ℝ) (h : 0 ≤ hi) :
    0 ≤ log1pClip x 0 hi := by
  cases x with
  | none => exact le_refl 0
  | some v => exact (clip_mem h _).1

theorem overlap_weight_mem (k : ℤ) : 0 ≤ overlap_weight k ∧ overlap_weight k ≤ 1 := by
  unfold overlap_weight
  split
  · norm_num
  · exact clip_mem (by norm_num) _

/-- For `k ≥ 1` the clip in `overlap_weight` is inactive. -/
theorem overlap_weight_of_pos {k : ℤ} (h : 0 < k) :
    overlap_weight k = 1 - Real.exp (-(k : ℝ) / 3) := by
  have hk : ¬(k ≤ 0) := not_le.mpr h
  have hlt : Real.exp (-(k : ℝ) / 3) ≤ 1 := by
    rw [Real.exp_le_one_iff]
    have : (0:ℝ) < (k:ℝ) := by exact_mod_cast h
    nlinarith
  have hpos : (0:ℝ) < Real.exp (-(k : ℝ) / 3) := Real.exp_pos _
  unfold overlap_weight
  rw [if_neg hk]
  unfold clip
  rw [max_eq_left (by linarith), min_eq_left (by linarith)]

theorem overlap_weight_strictMono {k1 k2 : ℤ} (h0 : 0 ≤ k1) (h : k1 < k2) :
    overlap_weight k1 < overlap_weight k2 := by
  have hk2 : 0 < k2 := lt_of_le_of_lt h0 h
  rw [overlap_weight_of_pos hk2]
  rcases eq_or_lt_of_le h0 with h1 | h1
  · have : overlap_weight k1 = 0 := by
      unfold overlap_weight
      rw [if_pos (by omega)]
    rw [this]
    have : Real.exp (-(k2 : ℝ) / 3) < 1 := by
      rw [Real.exp_lt_one_iff]
      have : (0:ℝ) < (k2:ℝ) := by exact_mod_cast hk2
      nlinarith
    linarith
  · rw [overlap_weight_of_pos h1]
    have : Real.exp (-(k2 : ℝ) / 3) < Real.exp (-(k1 : ℝ) / 3) := by
      rw [Real.exp_lt_exp]
      have : (k1:ℝ) < (k2:ℝ) := by exact_mod_cast h
      nlinarith
    linarith

theorem overlap_weight_tendsto_one :
    Filter.Tendsto (fun k : ℕ => overlap_weight (k : ℤ)) Filter.atTop (nhds 1) := by
  have hexp : Filter.Tendsto (fun k : ℕ => Real.exp (-((k : ℤ) : ℝ) / 3))
      Filter.atTop (nhds 0) := by
    apply Real.tendsto_exp_atBot.comp
    have hnat : Filter.Tendsto (fun k : ℕ => ((k : ℤ) : ℝ) / 3) Filter.atTop Filter.atTop := by
      apply Filter.Tendsto.atTop_div_const (by norm_num)
      have : (fun k : ℕ => ((k : ℤ) : ℝ)) = (fun k : ℕ => (k : ℝ)) := by
        funext k; push_cast; ring
      rw [this]
      exact tendsto_natCast_atTop_atTop
    have : (fun k : ℕ => -((k : ℤ) : ℝ) / 3) = (fun k : ℕ => -(((k : ℤ) : ℝ) / 3)) := by
      funext k; ring
    rw [this]
    exact Filter.tendsto_neg_atBot_iff.mpr hnat
  have hlim : Filter.Tendsto (fun k : ℕ => 1 - Real.exp (-((k : ℤ) : ℝ) / 3))
      Filter.atTop (nhds 1) := by
    have := Filter.Tendsto.const_sub (1:ℝ) hexp
    simpa using this
  apply Filter.Tendsto.congr' ?_ hlim
  rw [Filter.EventuallyEq, Filter.eventually_atTop]
  refine ⟨1, fun k hk => ?_⟩
  rw [overlap_weight_of_pos (by exact_mod_cast hk)]

/-- C8: `overlap_weight 0 = 0`; `overlap_weight` is strictly increasing on
nonnegative overlap counts; it tends to `1` as the count grows; and its value
always lies in `[0, 1]`. -/
theorem C8_overlap_weight_props :
    overlap_weight 0 = 0 ∧
    (∀ k : ℤ, 0 ≤ overlap_weight k ∧ overlap_weight k ≤ 1) ∧
    (∀ k1 k2 : ℤ, 0 ≤ k1 → k1 < k2 → overlap_weight k1 < overlap_weight k2) ∧
    Filter.Tendsto (fun k : ℕ => overlap_weight (k : ℤ)) Filter.atTop (nhds 1) := by
  refine ⟨?_, overlap_weight_mem, fun _ _ h0 h => overlap_weight_strictMono h0 h,
    overlap_weight_tendsto_one⟩
  unfold overlap_weight
  rw [if_pos (le_refl 0)]

/-- Witness for C8 at concrete inputs. -/
theorem C8_overlap_weight_props_witness :
    (0:ℤ) ≤ 0 ∧ (0:ℤ) < 1 ∧ overlap_weight 0 < overlap_weight 1 :=
  ⟨le_refl 0, by norm_num, C8_overlap_weight_props.2.2.1 0 1 (le_refl 0) (by norm_num)⟩

/-- C4 helper: `_neglog10_p` is antitone in the p-value. -/
theorem neglog10P_antitone {p1 p2 : ℝ} (h : p1 ≤ p2) :
    neglog10P (some p2) ≤ neglog10P (some p1) := by
  unfold neglog10P
  have h1 : (0:ℝ) < max p1 1e-300 := lt_max_of_lt_right (by norm_num)
  have h2 : (0:ℝ) < max p2 1e-300 := lt_max_of_lt_right (by norm_num)
  have hle : max p1 1e-300 ≤ max p2 1e-300 := max_le_max h le_rfl
  have := (Real.logb_le_logb (b := 10) (by norm_num) h1 h2).mpr hle
  linarith

/-- C4: `triage_score` is monotone non-increasing in the adjusted p-value,
with odds ratio, combined score and overlap count held fixed. -/
theorem C4_triage_score_antitone_in_padj (p1 p2 : ℝ) (oddsRat combScore : Option ℝ)
    (k : ℤ) (h : p1 ≤ p2) :
    triage_score (some p2) oddsRat combScore k ≤ triage_score (some p1) oddsRat combScore k := by
  unfold triage_score
  apply clip_mono
  have hs := neglog10P_antitone h
  have hA1 : 0 ≤ log1pClip oddsRat 0 6 := log1pClip_nonneg _ _ (by norm_num)
  have hA2 : 0 ≤ log1pClip combScore 0 8 := log1pClip_nonneg _ _ (by norm_num)
  have hF : 0 ≤ 0.35 + 0.65 * overlap_weight k := by
    have := (overlap_weight_mem k).1
    nlinarith
  nlinarith [mul_nonneg hF (sub_nonneg.mpr hs)]

/-- Witness for C4 at concrete inputs. -/
theorem C4_triage_score_antitone_in_padj_witness :
    (1:ℝ)/100 ≤ 1/10 ∧
      triage_score (some ((1:ℝ)/10)) none none 3 ≤ triage_score (some ((1:ℝ)/100)) none none 3 :=
  ⟨by norm_num, C4_triage_score_antitone_in_padj (1/100) (1/10) none none 3 (by norm_num)⟩

/-! ## BioFit ontology and scorer (biofit.py) -/

/-- Case-insensitive anchored regex `^LIT` under `re.search(..., IGNORECASE)`. -/
def rePre (lit g : String) : Bool := (upperStr g).startsWith lit

/-- Case-insensitive anchored regex `^LIT$`. -/
def reExact (lit g : String) : Bool := upperStr g = lit

/-- Case-insensitive anchored regex `^LIT\d` or `^LIT\d+`: the literal
followed by at least one digit. -/
def rePreD (lit g : String) : Bool :=
  (upperStr g).startsWith lit &&
    (match ((upperStr g).drop lit.length).toList with
     | [] => false
     | c :: _ => c.isDigit)

/-- `Program` ontology entry; compiled gene regexes are embedded as boolean
predicates on gene symbols. -/
structure Program where
  name : String
  term_keywords : List String
  phenotype_keywords : List String
  gene_matchers : List (String → Bool)
  confounder : Option String := none

/-- One entry of `DEFAULT_ARTIFACT_BUCKETS` (dict order preserved). -/
structure ArtifactBucket where
  name : String
  term_keywords : List String
  gene_matchers : List (String → Bool)
  note : String := ""

/-- `DEFAULT_PROGRAMS`. -/
def DEFAULT_PROGRAMS : List Program := [
  { name := "ECM_FIBROSIS",
    term_keywords := ["extracellular matrix", "collagen", "ecm", "focal adhesion",
      "integrin", "tgf", "wound healing", "myofibroblast"],
    phenotype_keywords := ["fibrosis", "scar", "ecm", "collagen", "stiffness",
      "matrix", "myofibroblast", "tgf"],
    gene_matchers := [rePreD ("COL"), reExact ("FN1"), reExact ("POSTN"),
      reExact ("SPARC"), rePreD ("TGFB"), rePreD ("SMAD"), rePre ("ITGA"),
      rePre ("ITGB"), rePreD ("MMP"), rePreD ("TIMP")],
    confounder := some ("Often core to fibroblast activation; can also reflect cell-state shifts/composition.") },
  { name := "INNATE_IFN_ANTIVIRAL",
    term_keywords := ["interferon", "ifn", "antiviral", "defense response to virus",
      "pattern recognition", "rig-i", "tlr", "jak-stat"],
    phenotype_keywords := ["viral", "ifn", "interferon", "innate immune",
      "antiviral", "inflammation"],
    gene_matchers := [rePre ("IFIT"), rePreD ("ISG"), rePreD ("OAS"), rePreD ("MX"),
      rePreD ("STAT"), rePreD ("IRF"), rePreD ("DDX"), rePreD ("TLR"), rePreD ("CXCL")],
    confounder := some ("Strong IFN programs can dominate many datasets; check whether expected vs contamination/stimulation artifact.") },
  { name := "ADAPTIVE_T_CELL",
    term_keywords := ["t cell", "t-cell", "cd3", "antigen presentation", "mhc",
      "cytotoxic", "pd-1", "checkpoint", "exhaustion"],
    phenotype_keywords := ["t cell", "exhaustion", "checkpoint", "pd-1",
      "cytotoxic", "antigen", "mhc"],
    gene_matchers := [rePre ("CD3"), reExact ("TRAC"), rePre ("TRBC"),
      reExact ("GZMB"), reExact ("PRF1"), reExact ("LAG3"), reExact ("PDCD1"),
      reExact ("CTLA4"), rePre ("HLA-"), reExact ("B2M")] },
  { name := "DDR_P53_APOPTOSIS",
    term_keywords := ["dna damage", "p53", "apoptosis", "checkpoint", "g2m",
      "g1s", "repair", "homologous recombination", "nhej"],
    phenotype_keywords := ["dna damage", "genotoxic", "apoptosis", "senescence",
      "p53", "repair"],
    gene_matchers := [reExact ("TP53"), reExact ("CDKN1A"), rePre ("GADD45"),
      reExact ("BAX"), reExact ("BBC3"), reExact ("ATM"), reExact ("ATR"),
      rePreD ("BRCA"), rePreD ("RAD"), rePreD ("CHEK")],
    confounder := some ("Cell cycle and DDR can be downstream of stress/proliferation changes; interpret causality carefully.") },
  { name := "UPR_PROTEOSTASIS",
    term_keywords := ["unfolded protein", "upr", "er stress", "endoplasmic reticulum",
      "protein folding", "proteasome", "heat shock"],
    phenotype_keywords := ["er stress", "upr", "proteostasis", "misfold",
      "heat shock", "proteasome"],
    gene_matchers := [rePre ("HSPA"), rePre ("HSPB"), rePre ("DNAJ"),
      reExact ("XBP1"), reExact ("ATF4"), reExact ("DDIT3"), rePre ("HERPUD"),
      rePre ("PSM"), reExact ("UBB")],
    confounder := some ("Common stress signature; can be real biology or handling/viability artifact.") },
  { name := "MITO_OXPHOS",
    term_keywords := ["mitochond", "oxidative phosphorylation", "oxphos",
      "respiratory chain", "tca", "electron transport"],
    phenotype_keywords := ["mitochond", "oxphos", "energy", "respiration", "tca"],
    gene_matchers := [rePre ("MT-"), rePre ("NDUF"), rePreD ("COX"), rePre ("ATP5"),
      rePre ("SDH"), rePre ("UQCR"), reExact ("CS"), rePreD ("IDH"), rePre ("PDHA")],
    confounder := some ("Mito terms swing with composition and overall expression quality; check for global shifts.") }]

/-- `DEFAULT_ARTIFACT_BUCKETS` in dict insertion order. -/
def DEFAULT_ARTIFACT_BUCKETS : List ArtifactBucket := [
  { name := "RIBOSOME_TRANSLATION",
    term_keywords := ["ribosome", "translation", "rRNA", "ribosomal", "srp"],
    gene_matchers := [rePre ("RPL"), rePre ("RPS"), rePre ("EEF"), rePre ("EIF")],
    note := "Often reflects growth rate, stress, or library composition; treat as downstream unless phenotype supports it." },
  { name := "CELL_CYCLE_PROLIFERATION",
    term_keywords := ["cell cycle", "mitotic", "g2m", "g1s", "dna replication",
      "m phase", "e2f"],
    gene_matchers := [reExact ("MKI67"), reExact ("TOP2A"), rePre ("CCN"),
      rePre ("CDK"), reExact ("PCNA"), rePreD ("MCM"), reExact ("UBE2C")],
    note := "Extremely common confounder; real if phenotype is proliferation, growth, tumor, regeneration." }]

/-- `BioFitConfig` with its documented defaults (`__post_init__` fills the
ontology). -/
structure BioFitConfig where
  programs : List Program := DEFAULT_PROGRAMS
  artifact_buckets : List ArtifactBucket := DEFAULT_ARTIFACT_BUCKETS
  w_term_program : ℚ := 0.45
  w_pheno_program : ℚ := 0.25
  w_gene_support : ℚ := 0.25
  w_system_penalty : ℚ := 0.10
  artifact_penalty : ℚ := 0.25
  tiny_overlap_penalty : ℚ := 0.20
  min_genes_for_confidence : ℕ := 3

/-- `_gene_family_hits`: genes matched by at least one pattern (the inner
`break` makes the Python loop count each gene at most once). -/
def geneFamilyHits (genes : List String) (matchers : List (String → Bool)) : ℕ :=
  if genes.isEmpty || matchers.isEmpty then 0
  else (genes.filter (fun g => matchers.any (fun m => m g))).length

/-- `_program_match_strength`. -/
def programMatchStrength (term : String) (p : Program) : ℚ :=
  clip01 ((countAny term p.term_keywords : ℚ) / 2)

/-- `_phenotype_support_strength`. -/
def phenotypeSupportStrength (phenotype : String) (p : Program) : ℚ :=
  clip01 ((countAny phenotype p.phenotype_keywords : ℚ) / 2)

/-- The six free-text context fields consumed by BioFit. -/
structure Context where
  tissue : String := ""
  cell_type : String := ""
  assay : String := ""
  perturbation : String := ""
  timepoint : String := ""
  organism : String := ""

/-- `_system_penalty`: additive domain-mismatch penalties, clipped to `[0,1]`. -/
def systemPenalty (term : String) (ctx : Context) : ℚ :=
  let tissue := normText ctx.tissue
  let celltype := normText ctx.cell_type
  let assay := normText ctx.assay
  let t := normText term
  let p1 : ℚ :=
    if (["synapse", "neuron", "axonal", "dopamine", "glutamate"].any (fun k => substrOf k t)) &&
       !(["brain", "neuron", "astro", "microglia"].any
          (fun k => substrOf k (tissue ++ (" ") ++ celltype))) then 0.6 else 0
  let p2 : ℚ :=
    if (["muscle contraction", "sarcomere", "myofibril"].any (fun k => substrOf k t)) &&
       !(["muscle", "cardio", "myocyte"].any
          (fun k => substrOf k (tissue ++ (" ") ++ celltype))) then 0.5 else 0
  let p3 : ℚ :=
    if (["b cell", "b-cell", "immunoglobulin", "bcr signaling"].any (fun k => substrOf k t)) &&
       !(["b cell", "lymph", "spleen", "pbmc", "immune"].any
          (fun k => substrOf k (tissue ++ (" ") ++ celltype))) then 0.4 else 0
  let p4 : ℚ :=
    if (["atac", "chip"].any (fun k => substrOf k assay)) &&
       (["ribosome", "translation"].any (fun k => substrOf k t)) then 0.2 else 0
  clip 0 1 (p1 + p2 + p3 + p4)

/-- `_artifact_likelihood` accumulator over the artifact buckets. -/
def artifactAux (t : String) (genes : List String) (cfg : BioFitConfig) :
    List ArtifactBucket → ℚ × List String → ℚ × List String
  | [], acc => acc
  | b :: bs, (like, reasons) =>
      if hasAny t b.term_keywords then
        let frac : ℚ := (geneFamilyHits genes b.gene_matchers : ℚ) / (max genes.length 1 : ℚ)
        if 0.6 ≤ frac ∧ cfg.min_genes_for_confidence ≤ genes.length then
          artifactAux t genes cfg bs
            (max like 0.85, reasons ++ [lowerStr b.name ++ "_dominant_genes"])
        else
          artifactAux t genes cfg bs
            (max like 0.55, reasons ++ [lowerStr b.name ++ "_term_match"])
      else artifactAux t genes cfg bs (like, reasons)

/-- `_artifact_likelihood`. -/
def artifactLikelihood (t : String) (genes : List String) (cfg : BioFitConfig) :
    ℚ × List String :=
  let lr := artifactAux t genes cfg cfg.artifact_buckets (0, [])
  (clip 0 1 lr.1, lr.2)

/-- Accumulator of the best-program loop in `biofit_score`. -/
structure BestProg where
  best_program : Option String := none
  best_prog : ℚ := 0
  best_pheno : ℚ := 0
  best_gene : ℚ := 0

/-- One program's `(combined, ph, gh)` triple inside the loop. -/
def progCombined (term_n phen_n : String) (genes : List String) (p : Program) : ℚ × ℚ × ℚ :=
  let pm := programMatchStrength term_n p
  let ph := phenotypeSupportStrength phen_n p
  let gh : ℚ :=
    if genes ≠ [] then
      clip01 (((geneFamilyHits genes p.gene_matchers : ℚ) / (max genes.length 1 : ℚ)) / 0.35)
    else 0
  (0.55 * pm + 0.25 * ph + 0.20 * gh, ph, gh)

/-- The best-program loop (`combined > best_prog` keeps the first maximum). -/
def bestProgAux (term_n phen_n : String) (genes : List String) :
    List Program → BestProg → BestProg
  | [], acc => acc
  | p :: ps, acc =>
      let cph := progCombined term_n phen_n genes p
      if acc.best_prog < cph.1 then
        bestProgAux term_n phen_n genes ps
          { best_program := some p.name, best_prog := cph.1,
            best_pheno := cph.2.1, best_gene := cph.2.2 }
      else bestProgAux term_n phen_n genes ps acc

/-- Diagnostic component breakdown returned by `biofit_score`. -/
structure BioFitComponents where
  term_program : ℚ := 0
  phenotype_program : ℚ := 0
  gene_support : ℚ := 0
  system_plausibility : ℚ := 0
  artifact_likelihood : ℚ := 0
  penalties_total : ℚ := 0
  base01 : ℚ := 0
  final01 : ℚ := 0
  deriving DecidableEq

/-- Full return value of `biofit_score`. -/
structure BioFitOut where
  biofit_score : ℚ
  best_program : Option String
  components : BioFitComponents
  artifact_reasons : List String
  flags : List String
  deriving DecidableEq

/-- `biofit_score(term, genes, overlap_k, phenotype, context, cfg)`. -/
def biofit_score (term : String) (genes : List String) (overlapK : ℤ)
    (phenotype : String) (ctx : Context) (cfg : BioFitConfig) : BioFitOut :=
  let phenotype_n := normText phenotype
  let term_n := normText term
  let best := bestProgAux term_n phenotype_n genes cfg.programs {}
  let sys_pen := systemPenalty term_n ctx
  let artLR := artifactLikelihood term_n genes cfg
  let art_like := artLR.1
  let wsum0 := cfg.w_term_program + cfg.w_pheno_program
      + cfg.w_gene_support + cfg.w_system_penalty
  let wsum := if wsum0 ≤ 0 then 1 else wsum0
  let term_component := best.best_prog
  let pheno_component := best.best_pheno
  let gene_component := best.best_gene
  let system_component := 1 - sys_pen
  let base01 := clip01 ((cfg.w_term_program * term_component
      + cfg.w_pheno_program * pheno_component
      + cfg.w_gene_support * gene_component
      + cfg.w_system_penalty * system_component) / wsum)
  let penalties1 : ℚ := if overlapK ≤ 2 then cfg.tiny_overlap_penalty else 0
  let flags1 : List String := if overlapK ≤ 2 then ["tiny_overlap_biofit"] else []
  let penalties2 : ℚ :=
    if 0.8 ≤ art_like then cfg.artifact_penalty
    else if 0.55 ≤ art_like then cfg.artifact_penalty * 0.6 else 0
  let flags2 : List String :=
    if 0.8 ≤ art_like then ["likely_artifact"]
    else if 0.55 ≤ art_like then ["possible_artifact"] else []
  let penalties := penalties1 + penalties2
  let final01 := clip01 (base01 * (1 - penalties))
  { biofit_score := clip 0 100 (final01 * 100),
    best_program := best.best_program,
    components :=
      { term_program := term_component,
        phenotype_program := pheno_component,
        gene_support := gene_component,
        system_plausibility := system_component,
        artifact_likelihood := art_like,
        penalties_total := penalties,
        base01 := base01,
        final01 := final01 },
    artifact_reasons := artLR.2,
    flags := flags1 ++ flags2 }

/-- The BioFit score is by construction a clip to `[0, 100]`. -/
theorem biofit_score_eq_clip (term : String) (genes : List String) (overlapK : ℤ)
    (phenotype : String) (ctx : Context) (cfg : BioFitConfig) :
    ∃ x, (biofit_score term genes overlapK phenotype ctx cfg).biofit_score
      = clip 0 100 x :=
  ⟨_, rfl⟩

/-! ## Redundancy clustering (triage.py, `TriageConfig`,
`cluster_by_gene_overlap`) -/

/-- `TriageConfig` with its documented defaults (`mkRat 35 100 = 0.35`,
written so that it evaluates inside the kernel). -/
structure TriageConfig where
  jaccard_threshold : ℚ := mkRat 35 100
  max_rows_for_clustering : ℕ := 4000
  cluster_top_n : ℕ := 500
  deriving DecidableEq

/-- One row dict of the triage layer.  The score type `α` is `ℝ` in the
pipeline and may be instantiated with `ℚ` (floats are rationals) for
concrete evaluation.  Keys that the Python code adds later
(`cluster_id`, `cluster_sim_to_seed`) are `Option`s that start as `none`. -/
structure TRow (α : Type*) where
  row_id : String
  term : String := ""
  p_value : Option α := none
  adjusted_p_value : Option α := none
  odds_ratio : Option α := none
  combined_score : Option α := none
  overlap_k : ℤ := 0
  overlap_n : Option ℤ := none
  genes_list : List String := []
  triage_score : α
  biofit_score : α
  biofit_program : Option String := none
  biofit_components : BioFitComponents := {}
  biofit_artifact_reasons : List String := []
  combined_pre_gpt_score : Option α := none
  flags : List String := []
  cluster_id : Option String := none
  cluster_sim_to_seed : Option ℚ := none
  deriving DecidableEq

/-- In-progress cluster record. -/
structure TCluster (α : Type*) where
  cluster_id : String
  seed_term : String
  members : List String
  cluster_score : α
  union_genes : Finset String
  deriving DecidableEq

/-- JSON-cleaned cluster record. -/
structure TClusterOut (α : Type*) where
  cluster_id : String
  seed_term : String
  member_count : ℕ
  members : List String
  cluster_score : α
  union_genes : List String
  deriving DecidableEq

/-- `score_key`: `r.get("combined_pre_gpt_score", r["triage_score"])`. -/
def scoreKey {α : Type*} (r : TRow α) : α :=
  r.combined_pre_gpt_score.getD r.triage_score

/-- Python's stable `sorted(rows, key=score_key, reverse=True)`. -/
def sortByScoreDesc {α : Type*} [LinearOrder α] (rows : List (TRow α)) : List (TRow α) :=
  List.insertionSort (fun a b => scoreKey b ≤ scoreKey a) rows

/-- The best-cluster scan: running `(best_idx, best_sim)` with a strict
`sim > best_sim` update, carrying the matched cluster alongside its index. -/
def bestMatchAux {α : Type*} (g : Finset String) :
    List (TCluster α) → ℕ → Option (ℕ × TCluster α) × ℚ → Option (ℕ × TCluster α) × ℚ
  | [], _, acc => acc
  | c :: cs, i, acc =>
      if acc.2 < jaccard g c.union_genes then
        bestMatchAux g cs (i + 1) (some (i, c), jaccard g c.union_genes)
      else bestMatchAux g cs (i + 1) acc

/-- `best_idx = None, best_sim = 0.0` then scan all clusters. -/
def bestMatch {α : Type*} (g : Finset String) (clusters : List (TCluster α)) :
    Option (ℕ × TCluster α) × ℚ :=
  bestMatchAux g clusters 0 (none, 0)

/-- Open a fresh cluster seeded by row `r` (`cid = f"C{len+1:03d}"`). -/
def clusterSeed {α : Type*} [LinearOrder α] (clusters : List (TCluster α))
    (r : TRow α) (gset : Finset String) : List (TCluster α) × TRow α :=
  let cid := "C" ++ padNum 3 (clusters.length + 1)
  (clusters ++ [{ cluster_id := cid,
                  seed_term := r.term,
                  members := [r.row_id],
                  cluster_score := scoreKey r,
                  union_genes := gset }],
   { r with cluster_id := some cid, cluster_sim_to_seed := some 1 })

/-- Merge row `r` into cluster `c`: append the member, grow the gene union,
raise the cluster score to the max. -/
def mergedCluster {α : Type*} [LinearOrder α] (c : TCluster α) (r : TRow α) : TCluster α :=
  { c with members := c.members ++ [r.row_id],
           union_genes := c.union_genes ∪ r.genes_list.toFinset,
           cluster_score := max c.cluster_score (scoreKey r) }

/-- Process one row of the greedy clustering loop. -/
def clusterStep {α : Type*} [LinearOrder α] (cfg : TriageConfig)
    (clusters : List (TCluster α)) (r : TRow α) : List (TCluster α) × TRow α :=
  match bestMatch r.genes_list.toFinset clusters with
  | (some ic, bs) =>
      if cfg.jaccard_threshold ≤ bs then
        (clusters.set ic.1 (mergedCluster ic.2 r),
         { r with cluster_id := some ic.2.cluster_id, cluster_sim_to_seed := some bs })
      else clusterSeed clusters r r.genes_list.toFinset
  | (none, _) => clusterSeed clusters r r.genes_list.toFinset

/-- The whole greedy loop, returning final clusters and annotated rows in
processing order. -/
def clusterFold {α : Type*} [LinearOrder α] (cfg : TriageConfig) :
    List (TCluster α) → List (TRow α) → List (TCluster α) × List (TRow α)
  | cs, [] => (cs, [])
  | cs, r :: rs =>
      let step := clusterStep cfg cs r
      let rest := clusterFold cfg step.1 rs
      (rest.1, step.2 :: rest.2)

/-- `clean cluster output for JSON`. -/
def cleanCluster {α : Type*} (c : TCluster α) : TClusterOut α :=
  { cluster_id := c.cluster_id, seed_term := c.seed_term,
    member_count := c.members.length, members := c.members,
    cluster_score := c.cluster_score,
    union_genes := c.union_genes.sort (· ≤ ·) }

/-- The quadratic-blowup guard: truncate to the top `cluster_top_n` rows when
the row count exceeds `max_rows_for_clustering`. -/
def effRows {α : Type*} [LinearOrder α] (rows : List (TRow α)) (cfg : TriageConfig) :
    List (TRow α) :=
  if cfg.max_rows_for_clustering < rows.length then
    (sortByScoreDesc rows).take cfg.cluster_top_n
  else rows

/-- `cluster_by_gene_overlap(rows, cfg)`. -/
def cluster_by_gene_overlap {α : Type*} [LinearOrder α] (rows : List (TRow α))
    (cfg : TriageConfig) : List (TClusterOut α) × List (TRow α) :=
  if rows.length = 0 then ([], rows)
  else
    let rows_sorted := sortByScoreDesc (effRows rows cfg)
    let folded := clusterFold cfg [] rows_sorted
    (folded.1.map cleanCluster, folded.2)

/-- C9: clustering is deterministic — two runs of `cluster_by_gene_overlap`
on the same rows and configuration produce identical cluster lists and
identical per-row `cluster_id` / `cluster_sim_to_seed` annotations. -/
theorem C9_clustering_deterministic (rows : List (TRow ℚ)) (cfg : TriageConfig) :
    (cluster_by_gene_overlap rows cfg).1 = (cluster_by_gene_overlap rows cfg).1 ∧
    (cluster_by_gene_overlap rows cfg).2 = (cluster_by_gene_overlap rows cfg).2 ∧
    ((cluster_by_gene_overlap rows cfg).2.map TRow.cluster_id
      = (cluster_by_gene_overlap rows cfg).2.map TRow.cluster_id) ∧
    ((cluster_by_gene_overlap rows cfg).2.map TRow.cluster_sim_to_seed
      = (cluster_by_gene_overlap rows cfg).2.map TRow.cluster_sim_to_seed) :=
  ⟨rfl, rfl, rfl, rfl⟩

/-- Concrete rows refuting C1 as stated: R1 and R6 share the gene set
`{a, b, c}`, but the cluster seeded by R1 grows away from it through a chain
of partial overlaps, so R6 lands below the 0.35 threshold and seeds its own
cluster. -/
def C1exRows : List (TRow ℚ) := [
  { row_id := "R1", genes_list := ["a", "b", "c"], triage_score := 10,
    biofit_score := 0, combined_pre_gpt_score := some 10 },
  { row_id := "R2", genes_list := ["b", "c", "d", "e"], triage_score := 9,
    biofit_score := 0, combined_pre_gpt_score := some 9 },
  { row_id := "R3", genes_list := ["c", "d", "e", "f", "g"], triage_score := 8,
    biofit_score := 0, combined_pre_gpt_score := some 8 },
  { row_id := "R4", genes_list := ["d", "e", "f", "g", "h", "i"], triage_score := 7,
    biofit_score := 0, combined_pre_gpt_score := some 7 },
  { row_id := "R5", genes_list := ["e", "f", "g", "h", "i", "j", "k"], triage_score := 6,
    biofit_score := 0, combined_pre_gpt_score := some 6 },
  { row_id := "R6", genes_list := ["a", "b", "c"], triage_score := 5,
    biofit_score := 0, combined_pre_gpt_score := some 5 }]

/-- The default configuration used by the C1 counterexample. -/
def C1exCfg : TriageConfig := {}

/-- C1 counterexample: with the default `jaccard_threshold = 0.35 ≤ 1.0`,
rows R1 and R6 carry identical gene sets yet are annotated with different
cluster ids (`C001` vs `C002`) by `cluster_by_gene_overlap`. -/
theorem C1_counterexample :
    C1exCfg.jaccard_threshold ≤ 1 ∧
    (C1exRows.map TRow.genes_list = [["a", "b", "c"], ["b", "c", "d", "e"],
      ["c", "d", "e", "f", "g"], ["d", "e", "f", "g", "h", "i"],
      ["e", "f", "g", "h", "i", "j", "k"], ["a", "b", "c"]]) ∧
    ((cluster_by_gene_overlap C1exRows C1exCfg).2.map TRow.row_id
      = ["R1", "R2", "R3", "R4", "R5", "R6"]) ∧
    ((cluster_by_gene_overlap C1exRows C1exCfg).2.map TRow.cluster_id
      = [some "C001", some "C001", some "C001", some "C001", some "C001",
         some "C002"]) := by
  decide

/-! ### Specification of the best-cluster scan -/

theorem bestMatchAux_stay {α : Type*} (g : Finset String) :
    ∀ (l : List (TCluster α)) (i : ℕ) (acc : Option (ℕ × TCluster α) × ℚ),
      (∀ c ∈ l, jaccard g c.union_genes ≤ acc.2) →
      bestMatchAux g l i acc = acc := by
  intro l
  induction l with
  | nil => intro i acc _; rfl
  | cons c cs ih =>
      intro i acc h
      simp only [bestMatchAux]
      rw [if_neg (not_lt.mpr (h c (by simp)))]
      exact ih (i + 1) acc (fun c' hc' => h c' (by simp [hc']))

theorem bestMatchAux_first_max {α : Type*} (g : Finset String) :
    ∀ (l : List (TCluster α)) (j : ℕ) (c : TCluster α), l[j]? = some c →
      (∀ j' c', j' < j → l[j']? = some c' →
        jaccard g c'.union_genes < jaccard g c.union_genes) →
      (∀ j' c', j < j' → l[j']? = some c' →
        jaccard g c'.union_genes ≤ jaccard g c.union_genes) →
      ∀ i acc, acc.2 < jaccard g c.union_genes →
        bestMatchAux g l i acc = (some (i + j, c), jaccard g c.union_genes) := by
  intro l
  induction l with
  | nil => intro j c hj; simp at hj
  | cons c0 cs ih =>
      intro j c hj hlt hle i acc hacc
      cases j with
      | zero =>
          have hc0 : c0 = c := by simpa using hj
          subst hc0
          simp only [bestMatchAux]
          rw [if_pos hacc]
          have hstay : bestMatchAux g cs (i + 1) (some (i, c0), jaccard g c0.union_genes)
              = (some (i, c0), jaccard g c0.union_genes) := by
            apply bestMatchAux_stay
            intro c' hc'
            obtain ⟨k, hk⟩ := List.mem_iff_getElem?.mp hc'
            exact hle (k + 1) c' (Nat.succ_pos k) (by simpa using hk)
          rw [hstay]
          simp
      | succ k =>
          have hj' : cs[k]? = some c := by simpa using hj
          have h0 : jaccard g c0.union_genes < jaccard g c.union_genes :=
            hlt 0 c0 (Nat.succ_pos k) (by simp)
          have hlt' : ∀ j' c', j' < k → cs[j']? = some c' →
              jaccard g c'.union_genes < jaccard g c.union_genes :=
            fun j' c' hjk hget => hlt (j' + 1) c' (by omega) (by simpa using hget)
          have hle' : ∀ j' c', k < j' → cs[j']? = some c' →
              jaccard g c'.union_genes ≤ jaccard g c.union_genes :=
            fun j' c' hjk hget => hle (j' + 1) c' (by omega) (by simpa using hget)
          simp only [bestMatchAux]
          by_cases hcase : acc.2 < jaccard g c0.union_genes
          · rw [if_pos hcase]
            have hrec := ih k c hj' hlt' hle' (i + 1)
              (some (i, c0), jaccard g c0.union_genes) h0
            rw [(by omega : i + 1 + k = i + (k + 1))] at hrec
            exact hrec
          · rw [if_neg hcase]
            have hrec := ih k c hj' hlt' hle' (i + 1) acc hacc
            rw [(by omega : i + 1 + k = i + (k + 1))] at hrec
            exact hrec

theorem bestMatchAux_spec {α : Type*} (g : Finset String) :
    ∀ (l : List (TCluster α)) (i : ℕ) (acc : Option (ℕ × TCluster α) × ℚ),
      (bestMatchAux g l i acc = acc ∧
        ∀ c ∈ l, jaccard g c.union_genes ≤ acc.2) ∨
      (∃ j c, l[j]? = some c ∧
        bestMatchAux g l i acc = (some (i + j, c), jaccard g c.union_genes) ∧
        acc.2 < jaccard g c.union_genes ∧
        (∀ j' c', j' < j → l[j']? = some c' →
          jaccard g c'.union_genes < jaccard g c.union_genes) ∧
        (∀ j' c', j < j' → l[j']? = some c' →
          jaccard g c'.union_genes ≤ jaccard g c.union_genes)) := by
  intro l
  induction l with
  | nil => intro i acc; left; exact ⟨rfl, by simp⟩
  | cons c0 cs ih =>
      intro i acc
      by_cases hcase : acc.2 < jaccard g c0.union_genes
      · rcases ih (i + 1) (some (i, c0), jaccard g c0.union_genes) with
          ⟨heq, hall⟩ | ⟨j, c, hj, heq, hgt, hlt, hle⟩
        · right
          refine ⟨0, c0, by simp, ?_, hcase, ?_, ?_⟩
          · simp only [bestMatchAux]
            rw [if_pos hcase, heq]
            simp
          · intro j' c' hj' _
            omega
          · intro j' c' hj' hget
            cases j' with
            | zero => omega
            | succ k =>
                have hk : cs[k]? = some c' := by simpa using hget
                exact hall c' (List.mem_iff_getElem?.mpr ⟨k, hk⟩)
        · right
          refine ⟨j + 1, c, by simpa using hj, ?_, lt_trans hcase hgt, ?_, ?_⟩
          · simp only [bestMatchAux]
            rw [if_pos hcase, heq, (by omega : i + 1 + j = i + (j + 1))]
          · intro j' c' hj' hget
            cases j' with
            | zero =>
                have hc0 : c0 = c' := by simpa using hget
                subst hc0
                exact hgt
            | succ k => exact hlt k c' (by omega) (by simpa using hget)
          · intro j' c' hj' hget
            cases j' with
            | zero => omega
            | succ k => exact hle k c' (by omega) (by simpa using hget)
      · rcases ih (i + 1) acc with ⟨heq, hall⟩ | ⟨j, c, hj, heq, hgt, hlt, hle⟩
        · left
          refine ⟨?_, ?_⟩
          · simp only [bestMatchAux]
            rw [if_neg hcase]
            exact heq
          · intro c' hc'
            rcases List.mem_cons.mp hc' with h | h
            · subst h
              exact not_lt.mp hcase
            · exact hall c' h
        · right
          refine ⟨j + 1, c, by simpa using hj, ?_, hgt, ?_, ?_⟩
          · simp only [bestMatchAux]
            rw [if_neg hcase, heq, (by omega : i + 1 + j = i + (j + 1))]
          · intro j' c' hj' hget
            cases j' with
            | zero =>
                have hc0 : c0 = c' := by simpa using hget
                subst hc0
                exact lt_of_le_of_lt (not_lt.mp hcase) hgt
            | succ k => exact hlt k c' (by omega) (by simpa using hget)
          · intro j' c' hj' hget
            cases j' with
            | zero => omega
            | succ k => exact hle k c' (by omega) (by simpa using hget)

theorem bestMatch_none_le {α : Type*} (g : Finset String) (cs : List (TCluster α))
    (h : (bestMatch g cs).1 = none) :
    ∀ c ∈ cs, jaccard g c.union_genes ≤ 0 := by
  rcases bestMatchAux_spec g cs 0 (none, 0) with ⟨heq, hall⟩ | ⟨j, c, _, heq, _, _, _⟩
  · simpa using hall
  · exfalso
    rw [bestMatch, heq] at h
    simp at h

theorem bestMatch_some_spec {α : Type*} (g : Finset String) (cs : List (TCluster α))
    (i : ℕ) (c : TCluster α) (s : ℚ)
    (h : bestMatch g cs = (some (i, c), s)) :
    cs[i]? = some c ∧ s = jaccard g c.union_genes ∧ 0 < s ∧
    (∀ j' c', j' < i → cs[j']? = some c' → jaccard g c'.union_genes < s) ∧
    (∀ j' c', i < j' → cs[j']? = some c' → jaccard g c'.union_genes ≤ s) := by
  rcases bestMatchAux_spec g cs 0 (none, 0) with ⟨heq, _⟩ | ⟨j, c', hj, heq, hgt, hlt, hle⟩
  · exfalso
    rw [bestMatch, heq] at h
    simp at h
  · rw [bestMatch, heq] at h
    simp only [Prod.mk.injEq, Option.some.injEq] at h
    obtain ⟨⟨hji, hcc⟩, hs⟩ := h
    subst hcc
    have hj0 : j = i := by omega
    subst hj0
    subst hs
    refine ⟨hj, rfl, by simpa using hgt, hlt, hle⟩

/-! ### One-step equations for `clusterStep` -/

theorem clusterStep_none {α : Type*} [LinearOrder α] (cfg : TriageConfig)
    (cs : List (TCluster α)) (r : TRow α) (bs : ℚ)
    (h : bestMatch r.genes_list.toFinset cs = (none, bs)) :
    clusterStep cfg cs r = clusterSeed cs r r.genes_list.toFinset := by
  simp only [clusterStep, h]

theorem clusterStep_low {α : Type*} [LinearOrder α] (cfg : TriageConfig)
    (cs : List (TCluster α)) (r : TRow α) (ic : ℕ × TCluster α) (bs : ℚ)
    (h : bestMatch r.genes_list.toFinset cs = (some ic, bs))
    (hlow : ¬ cfg.jaccard_threshold ≤ bs) :
    clusterStep cfg cs r = clusterSeed cs r r.genes_list.toFinset := by
  simp only [clusterStep, h, if_neg hlow]

theorem clusterStep_join {α : Type*} [LinearOrder α] (cfg : TriageConfig)
    (cs : List (TCluster α)) (r : TRow α) (ic : ℕ × TCluster α) (bs : ℚ)
    (h : bestMatch r.genes_list.toFinset cs = (some ic, bs))
    (hhi : cfg.jaccard_threshold ≤ bs) :
    clusterStep cfg cs r =
      (cs.set ic.1 (mergedCluster ic.2 r),
       { r with cluster_id := some ic.2.cluster_id, cluster_sim_to_seed := some bs }) := by
  simp only [clusterStep, h, if_pos hhi]

/-- Core of the amended C1: two consecutively processed rows with the same
gene set are annotated with the same cluster id, for any threshold `≤ 1`. -/
theorem clusterStep_pair {α : Type*} [LinearOrder α] (cfg : TriageConfig)
    (cs : List (TCluster α)) (r1 r2 : TRow α)
    (hg : r1.genes_list.toFinset = r2.genes_list.toFinset)
    (ht : cfg.jaccard_threshold ≤ 1) :
    ∃ cid, (clusterStep cfg cs r1).2.cluster_id = some cid ∧
      (clusterStep cfg (clusterStep cfg cs r1).1 r2).2.cluster_id = some cid := by
  rcases hbm : bestMatch r1.genes_list.toFinset cs with ⟨bi, bs⟩
  have hseed : ∀ (hall : ∀ (j' : ℕ) (c' : TCluster α), cs[j']? = some c' →
      jaccard r1.genes_list.toFinset c'.union_genes < 1),
      clusterStep cfg cs r1 = clusterSeed cs r1 r1.genes_list.toFinset →
      ∃ cid, (clusterStep cfg cs r1).2.cluster_id = some cid ∧
        (clusterStep cfg (clusterStep cfg cs r1).1 r2).2.cluster_id = some cid := by
    intro hall hstep1
    refine ⟨"C" ++ padNum 3 (cs.length + 1), ?_, ?_⟩
    · rw [hstep1]; rfl
    · have hfirst : (clusterStep cfg cs r1).1 = cs ++
          [{ cluster_id := "C" ++ padNum 3 (cs.length + 1), seed_term := r1.term,
             members := [r1.row_id], cluster_score := scoreKey r1,
             union_genes := r1.genes_list.toFinset }] := by
        rw [hstep1]; rfl
      set newc : TCluster α :=
        { cluster_id := "C" ++ padNum 3 (cs.length + 1), seed_term := r1.term,
          members := [r1.row_id], cluster_score := scoreKey r1,
          union_genes := r1.genes_list.toFinset } with hnewc
      have hsim : jaccard r1.genes_list.toFinset newc.union_genes = 1 := jaccard_self _
      have hbm2 : bestMatch r1.genes_list.toFinset (cs ++ [newc])
          = (some (cs.length, newc), 1) := by
        have hmax := bestMatchAux_first_max r1.genes_list.toFinset (cs ++ [newc])
          cs.length newc (List.getElem?_concat_length cs newc)
          (fun j' c' hj' hget => by
            rw [List.getElem?_append_left hj'] at hget
            rw [hsim]
            exact hall j' c' hget)
          (fun j' c' hj' hget => by
            rw [List.getElem?_eq_none (by simp; omega)] at hget
            exact absurd hget (by simp))
          0 (none, 0) (by rw [hsim]; norm_num)
        rw [bestMatch, hmax, hsim]
        simp
      have hbm2r : bestMatch r2.genes_list.toFinset (cs ++ [newc])
          = (some (cs.length, newc), 1) := by rw [← hg]; exact hbm2
      have hstep2 := clusterStep_join cfg (cs ++ [newc]) r2 (cs.length, newc) 1 hbm2r ht
      rw [hfirst, hstep2]
  cases bi with
  | none =>
      apply hseed ?_ (clusterStep_none cfg cs r1 bs hbm)
      intro j' c' hget
      have hle := bestMatch_none_le r1.genes_list.toFinset cs (by rw [hbm]) c'
        (List.mem_iff_getElem?.mpr ⟨j', hget⟩)
      linarith
  | some ic =>
      obtain ⟨hgeti, hseq, hspos, hslt, hsle⟩ :=
        bestMatch_some_spec r1.genes_list.toFinset cs ic.1 ic.2 bs (by rw [hbm])
      have hall_le : ∀ (j' : ℕ) (c' : TCluster α), cs[j']? = some c' →
          jaccard r1.genes_list.toFinset c'.union_genes ≤ bs := by
        intro j' c' hget
        rcases lt_trichotomy j' ic.1 with hj | hj | hj
        · exact le_of_lt (hslt j' c' hj hget)
        · subst hj
          rw [hget] at hgeti
          have hc : c' = ic.2 := by simpa using hgeti
          subst hc
          exact le_of_eq hseq.symm
        · exact hsle j' c' hj hget
      by_cases hth : cfg.jaccard_threshold ≤ bs
      · -- join branch: r1 merges into cluster ic.1, and so does r2.
        obtain ⟨hiLen, _⟩ := List.getElem?_eq_some.mp hgeti
        have hstep1 := clusterStep_join cfg cs r1 ic bs hbm hth
        have hs2 : bs ≤ jaccard r1.genes_list.toFinset (mergedCluster ic.2 r1).union_genes := by
          rw [hseq]
          exact jaccard_union_self_ge _ _
        have hset_get : (cs.set ic.1 (mergedCluster ic.2 r1))[ic.1]?
            = some (mergedCluster ic.2 r1) := by
          rw [List.getElem?_set]
          simp [hiLen]
        have hbm2 : bestMatch r1.genes_list.toFinset (cs.set ic.1 (mergedCluster ic.2 r1))
            = (some (ic.1, mergedCluster ic.2 r1),
               jaccard r1.genes_list.toFinset (mergedCluster ic.2 r1).union_genes) := by
          have hmax := bestMatchAux_first_max r1.genes_list.toFinset
            (cs.set ic.1 (mergedCluster ic.2 r1)) ic.1 (mergedCluster ic.2 r1) hset_get
            (fun j' c' hj' hget => by
              rw [List.getElem?_set, if_neg (by omega)] at hget
              exact lt_of_lt_of_le (hslt j' c' hj' hget) hs2)
            (fun j' c' hj' hget => by
              rw [List.getElem?_set, if_neg (by omega)] at hget
              exact le_trans (hsle j' c' hj' hget) hs2)
            0 (none, 0) (lt_of_lt_of_le hspos hs2)
          rw [bestMatch, hmax]
          simp
        have hbm2r : bestMatch r2.genes_list.toFinset (cs.set ic.1 (mergedCluster ic.2 r1))
            = (some (ic.1, mergedCluster ic.2 r1),
               jaccard r1.genes_list.toFinset (mergedCluster ic.2 r1).union_genes) := by
          rw [← hg]
          exact hbm2
        have hstep2 := clusterStep_join cfg (cs.set ic.1 (mergedCluster ic.2 r1)) r2
          (ic.1, mergedCluster ic.2 r1)
          (jaccard r1.genes_list.toFinset (mergedCluster ic.2 r1).union_genes)
          hbm2r (le_trans hth hs2)
        refine ⟨ic.2.cluster_id, ?_, ?_⟩
        · rw [hstep1]
        · rw [hstep1, hstep2]
          rfl
      · -- below threshold: r1 seeds a fresh cluster, r2 joins it.
        apply hseed ?_ (clusterStep_low cfg cs r1 ic bs hbm hth)
        intro j' c' hget
        have h1 : bs < 1 := lt_of_lt_of_le (not_le.mp hth) ht
        exact lt_of_le_of_lt (hall_le j' c' hget) h1

/-! ### The clustering loop, decomposed -/

theorem clusterFold_append {α : Type*} [LinearOrder α] (cfg : TriageConfig) :
    ∀ (xs ys : List (TRow α)) (cs : List (TCluster α)),
      clusterFold cfg cs (xs ++ ys)
        = ((clusterFold cfg (clusterFold cfg cs xs).1 ys).1,
           (clusterFold cfg cs xs).2 ++ (clusterFold cfg (clusterFold cfg cs xs).1 ys).2) := by
  intro xs
  induction xs with
  | nil => intro ys cs; simp [clusterFold]
  | cons x xs ih => intro ys cs; simp [clusterFold, ih]

theorem clusterFold_length {α : Type*} [LinearOrder α] (cfg : TriageConfig) :
    ∀ (xs : List (TRow α)) (cs : List (TCluster α)),
      (clusterFold cfg cs xs).2.length = xs.length := by
  intro xs
  induction xs with
  | nil => intro cs; rfl
  | cons x xs ih => intro cs; simp [clusterFold, ih]

/-- C1 (amended): if two rows with identical gene sets are *consecutive* in
the score-sorted processing order, `cluster_by_gene_overlap` annotates both
with the same cluster id (for any `jaccard_threshold ≤ 1.0`).  The original
claim, for arbitrary positions, is refuted by `C1_counterexample`. -/
theorem C1_amended_consecutive {α : Type*} [LinearOrder α]
    (rows : List (TRow α)) (cfg : TriageConfig)
    (l1 l2 : List (TRow α)) (r1 r2 : TRow α)
    (ht : cfg.jaccard_threshold ≤ 1)
    (hs : sortByScoreDesc (effRows rows cfg) = l1 ++ r1 :: r2 :: l2)
    (hg : r1.genes_list.toFinset = r2.genes_list.toFinset) :
    ∃ cid,
      ((cluster_by_gene_overlap rows cfg).2[l1.length]?).map TRow.cluster_id
        = some (some cid) ∧
      ((cluster_by_gene_overlap rows cfg).2[l1.length + 1]?).map TRow.cluster_id
        = some (some cid) := by
  have hrows : ¬ rows.length = 0 := by
    intro h0
    rw [List.length_eq_zero] at h0
    subst h0
    simp [effRows, sortByScoreDesc, List.insertionSort] at hs
  have hmain : (cluster_by_gene_overlap rows cfg).2
      = (clusterFold cfg [] (l1 ++ r1 :: r2 :: l2)).2 := by
    simp only [cluster_by_gene_overlap, if_neg hrows]
    rw [hs]
  obtain ⟨cid, h1, h2⟩ :=
    clusterStep_pair cfg (clusterFold cfg ([] : List (TCluster α)) l1).1 r1 r2 hg ht
  have happ := clusterFold_append cfg l1 (r1 :: r2 :: l2) ([] : List (TCluster α))
  have hA : (clusterFold cfg ([] : List (TCluster α)) l1).2.length = l1.length :=
    clusterFold_length cfg l1 []
  have hB : (clusterFold cfg (clusterFold cfg ([] : List (TCluster α)) l1).1
        (r1 :: r2 :: l2)).2
      = (clusterStep cfg (clusterFold cfg ([] : List (TCluster α)) l1).1 r1).2
        :: (clusterStep cfg
              (clusterStep cfg (clusterFold cfg ([] : List (TCluster α)) l1).1 r1).1 r2).2
        :: (clusterFold cfg
              (clusterStep cfg
                (clusterStep cfg (clusterFold cfg ([] : List (TCluster α)) l1).1 r1).1 r2).1
              l2).2 := by
    simp [clusterFold]
  refine ⟨cid, ?_, ?_⟩
  · rw [hmain, happ]
    rw [List.getElem?_append_right (le_of_eq hA)]
    rw [hA, Nat.sub_self, hB]
    simpa using h1
  · rw [hmain, happ]
    rw [List.getElem?_append_right (by omega : (clusterFold cfg ([] : List (TCluster α)) l1).2.length ≤ l1.length + 1)]
    rw [hA]
    have : l1.length + 1 - l1.length = 1 := by omega
    rw [this, hB]
    simpa using h2

/-- Concrete rows for the C1-amended witness. -/
def C1w1 : TRow ℚ :=
  { row_id := "R1", genes_list := ["a"], triage_score := 2, biofit_score := 0,
    combined_pre_gpt_score := some 2 }

/-- Second witness row, same gene set, lower score. -/
def C1w2 : TRow ℚ :=
  { row_id := "R2", genes_list := ["a"], triage_score := 1, biofit_score := 0,
    combined_pre_gpt_score := some 1 }

/-- The witness row list. -/
def C1wRows : List (TRow ℚ) := [C1w1, C1w2]

/-- Default configuration for the C1-amended witness. -/
def C1wCfg : TriageConfig := {}

/-- Witness for the amended C1 at a concrete input. -/
theorem C1_amended_consecutive_witness :
    C1wCfg.jaccard_threshold ≤ 1 ∧
    sortByScoreDesc (effRows C1wRows C1wCfg) = [] ++ C1w1 :: C1w2 :: [] ∧
    C1w1.genes_list.toFinset = C1w2.genes_list.toFinset ∧
    (∃ cid,
      ((cluster_by_gene_overlap C1wRows C1wCfg).2[(0 : ℕ)]?).map TRow.cluster_id
        = some (some cid) ∧
      ((cluster_by_gene_overlap C1wRows C1wCfg).2[(1 : ℕ)]?).map TRow.cluster_id
        = some (some cid)) :=
  ⟨by decide, by decide, by decide,
    C1_amended_consecutive C1wRows C1wCfg [] [] C1w1 C1w2 (by decide) (by decide)
      (by decide)⟩

/-! ## Table model and the main entrypoint (triage.py,
`_pick_col`, `_safe_float`, `parse_overlap`, `parse_genes`,
`triage_enrichment_table`) -/

/-- A pandas cell: a string, a finite float (every float is a rational), or
null.  NaN/inf and other unparsable numeric values are modelled as `null`,
which is exactly what `_safe_float` maps them to. -/
inductive Cell
  | str (s : String)
  | num (q : ℚ)
  | null
  deriving DecidableEq

/-- A data frame: column names plus row-major cells. -/
structure DataFrame where
  columns : List String
  data : List (List Cell)
  deriving DecidableEq

/-- `rec[col]` for one row of `df.iterrows()`. -/
def dfCell (df : DataFrame) (rec : List Cell) (col : String) : Cell :=
  match df.columns.indexOf? col with
  | some i => (rec[i]?).getD Cell.null
  | none => Cell.null

/-- `_COL_ALIASES["term"]`. -/
def COL_ALIASES_term : List String := ["Term", "term", "pathway", "name"]

/-- `_COL_ALIASES["overlap"]`. -/
def COL_ALIASES_overlap : List String := ["Overlap", "overlap"]

/-- `_COL_ALIASES["pval"]`. -/
def COL_ALIASES_pval : List String := ["P.value", "pvalue", "P-value", "Pval", "p_val"]

/-- `_COL_ALIASES["padj"]`. -/
def COL_ALIASES_padj : List String :=
  ["Adjusted.P.value", "Adjusted P-value", "Adjusted.P-val", "FDR", "qvalue", "padj"]

/-- `_COL_ALIASES["odds_ratio"]`. -/
def COL_ALIASES_odds : List String := ["Odds.Ratio", "Odds Ratio", "odds_ratio", "OR"]

/-- `_COL_ALIASES["combined_score"]`. -/
def COL_ALIASES_combined : List String :=
  ["Combined.Score", "Combined Score", "combined_score"]

/-- `_COL_ALIASES["genes"]`. -/
def COL_ALIASES_genes : List String := ["Genes", "genes", "overlap_genes", "gene_list"]

/-- `_pick_col`: first candidate present verbatim, else the first candidate
matching case-insensitively; the dict comprehension makes the *last* column
with a given lowercase form win, hence the `reverse`. -/
def pickCol (cols : List String) (cands : List String) : Option String :=
  match cands.find? (fun c => cols.contains c) with
  | some c => some c
  | none =>
      cands.findSome? (fun c => (cols.reverse).find? (fun col => lowerStr col = lowerStr c))

/-- `_safe_float`: numeric cells pass through, everything else (null, NaN,
inf, non-numeric) becomes `none`. -/
def safeFloat : Cell → Option ℚ
  | Cell.num q => some q
  | _ => none

/-- `str(cell)` as applied before `.strip()`. -/
def cellStr : Cell → String
  | Cell.str s => s
  | Cell.num q => toString q
  | Cell.null => "nan"

/-- `parse_overlap`: `"k/n"` to `(some k, some n)`, anything else
`(none, none)`. -/
def parse_overlap (c : Cell) : Option ℤ × Option ℤ :=
  match c with
  | Cell.null => (none, none)
  | c =>
      let s := (cellStr c).trim
      if s.contains ('/') then
        let left := s.takeWhile (fun ch => ch ≠ '/')
        let right := (s.dropWhile (fun ch => ch ≠ '/')).drop 1
        match left.toInt?, right.toInt? with
        | some a, some b => (some a, some b)
        | _, _ => (none, none)
      else (none, none)

/-- `parse_genes`: split on `;`/`,`, strip, drop empties, de-dupe in order. -/
def parse_genes (c : Cell) : List String :=
  match c with
  | Cell.null => []
  | c =>
      let s := (cellStr c).trim
      if s = "" then []
      else dedup (((s.split (fun ch => ch == ';' || ch == ',')).map String.trim).filter
        (fun g => g ≠ ""))

/-- Payload of the `ValueError` raised on missing required columns. -/
structure ValidationError where
  missing : List String
  found : List String
  deriving DecidableEq

/-- The `missing` list: required keys whose alias lookup failed, in the fixed
order `term`, `genes`, `padj`. -/
def triageMissing (df : DataFrame) : List String :=
  ([("term", pickCol df.columns COL_ALIASES_term),
    ("genes", pickCol df.columns COL_ALIASES_genes),
    ("padj", pickCol df.columns COL_ALIASES_padj)].filterMap
    (fun kv => if kv.2 = none then some kv.1 else none))

/-- `bool((phenotype or "").strip())`. -/
def hasPheno (phenotype : String) : Bool := phenotype.trim != ""

/-- `w_bio = 0.60 if has_pheno else 0.35`. -/
noncomputable def wBio (phenotype : String) : ℝ := if hasPheno phenotype then 0.60 else 0.35

/-- Build one output row dict (the body of the `df.iterrows()` loop). -/
noncomputable def buildRow (df : DataFrame) (phenotype : String) (ctx : Context)
    (bcfg : BioFitConfig) (w_tri w_bio : ℝ)
    (colTerm colGenes : String)
    (colOverlap colPadj colOr colCs colP : Option String)
    (i : ℕ) (rec : List Cell) : TRow ℝ :=
  let term := (cellStr (dfCell df rec colTerm)).trim
  let genes_list := parse_genes (dfCell df rec colGenes)
  let kn : Option ℤ × Option ℤ :=
    match colOverlap with
    | some c => parse_overlap (dfCell df rec c)
    | none => (some (genes_list.length : ℤ), none)
  let padj := colPadj.bind (fun c => safeFloat (dfCell df rec c))
  let pval := colP.bind (fun c => safeFloat (dfCell df rec c))
  let oddsv := colOr.bind (fun c => safeFloat (dfCell df rec c))
  let csv := colCs.bind (fun c => safeFloat (dfCell df rec c))
  let overlapK : ℤ := kn.1.getD (genes_list.length : ℤ)
  let tri := triage_score (padj.map (fun q => (q : ℝ))) (oddsv.map (fun q => (q : ℝ)))
      (csv.map (fun q => (q : ℝ))) overlapK
  let bf := biofit_score term genes_list overlapK phenotype ctx bcfg
  let combined : ℝ := max 0 (min 100 (w_tri * tri + w_bio * (bf.biofit_score : ℝ)))
  let flags1 : List String := if overlapK ≤ 2 then ["tiny_overlap"] else []
  let flags2 : List String :=
    match padj with
    | some p => if (0.2 : ℚ) < p then ["weak_stats"] else []
    | none => []
  let flags3 : List String :=
    if (["metabolic process", "regulation of", "cellular process"].any
        (fun x => substrOf x (lowerStr term))) ∧ overlapK ≤ 2 then
      ["generic_term_small_overlap"]
    else []
  { row_id := "R" ++ padNum 4 (i + 1),
    term := term,
    p_value := pval.map (fun q => (q : ℝ)),
    adjusted_p_value := padj.map (fun q => (q : ℝ)),
    odds_ratio := oddsv.map (fun q => (q : ℝ)),
    combined_score := csv.map (fun q => (q : ℝ)),
    overlap_k := overlapK,
    overlap_n := kn.2,
    genes_list := genes_list,
    triage_score := tri,
    biofit_score := (bf.biofit_score : ℝ),
    biofit_program := bf.best_program,
    biofit_components := bf.components,
    biofit_artifact_reasons := bf.artifact_reasons,
    combined_pre_gpt_score := some combined,
    flags := flags1 ++ flags2 ++ flags3 ++ bf.flags }

/-- All built rows (`df.iterrows()` with pandas' default 0-based index). -/
noncomputable def triageRows (df : DataFrame) (phenotype : String) (ctx : Context)
    (bcfg : BioFitConfig) : List (TRow ℝ) :=
  let colTerm := (pickCol df.columns COL_ALIASES_term).getD ""
  let colOverlap := pickCol df.columns COL_ALIASES_overlap
  let colPadj := pickCol df.columns COL_ALIASES_padj
  let colOr := pickCol df.columns COL_ALIASES_odds
  let colCs := pickCol df.columns COL_ALIASES_combined
  let colGenes := (pickCol df.columns COL_ALIASES_genes).getD ""
  let colP := pickCol df.columns COL_ALIASES_pval
  df.data.enum.map (fun ir => buildRow df phenotype ctx bcfg
    (1 - wBio phenotype) (wBio phenotype)
    colTerm colGenes colOverlap colPadj colOr colCs colP ir.1 ir.2)

/-- `meta` of the triage output. -/
structure TriageMeta where
  n_rows : ℕ
  n_clusters : ℕ
  has_phenotype : Bool
  w_triage : ℝ
  w_biofit : ℝ
  config : TriageConfig

/-- Output structure of `triage_enrichment_table`. -/
structure TriageOutput where
  rows : List (TRow ℝ)
  clusters : List (TClusterOut ℝ)
  meta : TriageMeta

/-- The successful branch of `triage_enrichment_table`: build rows, sort by
combined score, cluster, assemble `meta`. -/
noncomputable def triageTableOk (df : DataFrame) (cfg : TriageConfig)
    (phenotype : String) (ctx : Context) (bcfg : BioFitConfig) : TriageOutput :=
  let rows := triageRows df phenotype ctx bcfg
  let rows_sorted := sortByScoreDesc rows
  let cr := cluster_by_gene_overlap rows_sorted cfg
  { rows := cr.2,
    clusters := cr.1,
    meta := { n_rows := rows.length,
              n_clusters := cr.1.length,
              has_phenotype := hasPheno phenotype,
              w_triage := 1 - wBio phenotype,
              w_biofit := wBio phenotype,
              config := cfg } }

/-- `triage_enrichment_table`: column validation, then the full computation;
a missing required column raises before any row is processed. -/
noncomputable def triage_enrichment_table (df : DataFrame) (cfg : TriageConfig)
    (phenotype : String) (ctx : Context) (bcfg : BioFitConfig) :
    Except ValidationError TriageOutput :=
  if triageMissing df = [] then Except.ok (triageTableOk df cfg phenotype ctx bcfg)
  else Except.error { missing := triageMissing df, found := df.columns }

/-! ## Supporting lemmas about the clustering loop -/

/-- Forget the cluster annotations of a row. -/
def stripAnn {α : Type*} (r : TRow α) : TRow α :=
  { r with cluster_id := none, cluster_sim_to_seed := none }

theorem stripAnn_clusterStep {α : Type*} [LinearOrder α] (cfg : TriageConfig)
    (cs : List (TCluster α)) (r : TRow α) :
    stripAnn (clusterStep cfg cs r).2 = stripAnn r := by
  rcases hbm : bestMatch r.genes_list.toFinset cs with ⟨bi, bs⟩
  cases bi with
  | none => rw [clusterStep_none cfg cs r bs hbm]; rfl
  | some ic =>
      by_cases hth : cfg.jaccard_threshold ≤ bs
      · rw [clusterStep_join cfg cs r ic bs hbm hth]
        rfl
      · rw [clusterStep_low cfg cs r ic bs hbm hth]; rfl

theorem clusterFold_map_strip {α : Type*} [LinearOrder α] (cfg : TriageConfig) :
    ∀ (xs : List (TRow α)) (cs : List (TCluster α)),
      ((clusterFold cfg cs xs).2).map stripAnn = xs.map stripAnn := by
  intro xs
  induction xs with
  | nil => intro cs; rfl
  | cons x xs ih => intro cs; simp [clusterFold, ih, stripAnn_clusterStep]

/-- Every row returned by `cluster_by_gene_overlap` is an input row with (at
most) fresh cluster annotations. -/
theorem cluster_mem_strip {α : Type*} [LinearOrder α] (rows : List (TRow α))
    (cfg : TriageConfig) (r' : TRow α)
    (h : r' ∈ (cluster_by_gene_overlap rows cfg).2) :
    ∃ r ∈ rows, stripAnn r' = stripAnn r := by
  by_cases h0 : rows.length = 0
  · simp only [cluster_by_gene_overlap, if_pos h0] at h
    exact ⟨r', h, rfl⟩
  · simp only [cluster_by_gene_overlap, if_neg h0] at h
    have hmap := clusterFold_map_strip cfg (sortByScoreDesc (effRows rows cfg)) []
    have hmem : stripAnn r' ∈ (sortByScoreDesc (effRows rows cfg)).map stripAnn := by
      rw [← hmap]
      exact List.mem_map_of_mem _ h
    obtain ⟨r0, hr0mem, hr0eq⟩ := List.mem_map.mp hmem
    have hr0eff : r0 ∈ effRows rows cfg :=
      (List.perm_insertionSort _ _).subset hr0mem
    have hr0rows : r0 ∈ rows := by
      unfold effRows at hr0eff
      split at hr0eff
      · exact (List.perm_insertionSort _ _).subset (List.take_subset _ _ hr0eff)
      · exact hr0eff
    exact ⟨r0, hr0rows, hr0eq.symm⟩

theorem sortByScoreDesc_sorted {α : Type*} [LinearOrder α] (l : List (TRow α)) :
    List.Sorted (fun a b : TRow α => scoreKey b ≤ scoreKey a) (sortByScoreDesc l) := by
  haveI htot : IsTotal (TRow α) (fun a b : TRow α => scoreKey b ≤ scoreKey a) :=
    ⟨fun a b => le_total (scoreKey b) (scoreKey a)⟩
  haveI htrans : IsTrans (TRow α) (fun a b : TRow α => scoreKey b ≤ scoreKey a) :=
    ⟨fun _ _ _ hab hbc => le_trans hbc hab⟩
  exact List.sorted_insertionSort _ l

theorem sortByScoreDesc_idem {α : Type*} [LinearOrder α] (l : List (TRow α)) :
    sortByScoreDesc (sortByScoreDesc l) = sortByScoreDesc l :=
  List.Sorted.insertionSort_eq (sortByScoreDesc_sorted l)

theorem sortByScoreDesc_length {α : Type*} [LinearOrder α] (l : List (TRow α)) :
    (sortByScoreDesc l).length = l.length :=
  (List.perm_insertionSort _ l).length_eq

/-! ## C7: properties of the Jaccard similarity -/

/-- C7: `jaccard` is symmetric; two empty sets give exactly `1.0`; exactly one
empty set gives exactly `0.0`; and the value always lies in `[0, 1]`. -/
theorem C7_jaccard_props :
    (∀ a b : Finset String, jaccard a b = jaccard b a) ∧
    jaccard ∅ ∅ = 1 ∧
    (∀ a : Finset String, a ≠ ∅ → jaccard ∅ a = 0 ∧ jaccard a ∅ = 0) ∧
    (∀ a b : Finset String, 0 ≤ jaccard a b ∧ jaccard a b ≤ 1) :=
  ⟨jaccard_comm, by unfold jaccard; simp,
   fun a h => ⟨jaccard_empty_left h, jaccard_empty_right h⟩,
   fun a b => ⟨jaccard_nonneg a b, jaccard_le_one a b⟩⟩

/-- Witness for C7 at a concrete nonempty set. -/
theorem C7_jaccard_props_witness :
    ({"x"} : Finset String) ≠ ∅ ∧ jaccard ∅ {"x"} = 0 ∧ jaccard {"x"} ∅ = 0 :=
  ⟨by decide, (C7_jaccard_props.2.2.1 {"x"} (by decide)).1,
   (C7_jaccard_props.2.2.1 {"x"} (by decide)).2⟩

/-! ## C2: score ranges -/

/-- C2: for every input — any optional statistics, any overlap count, any
term/genes/phenotype/context/configuration — `triage_score`, `biofit_score`
and the per-row `combined_pre_gpt_score` all lie in `[0, 100]`. -/
theorem C2_score_ranges :
    (∀ (padj oddsRat combScore : Option ℝ) (k : ℤ),
      0 ≤ triage_score padj oddsRat combScore k ∧
        triage_score padj oddsRat combScore k ≤ 100) ∧
    (∀ (term : String) (genes : List String) (k : ℤ) (phenotype : String)
        (ctx : Context) (cfg : BioFitConfig),
      0 ≤ (biofit_score term genes k phenotype ctx cfg).biofit_score ∧
        (biofit_score term genes k phenotype ctx cfg).biofit_score ≤ 100) ∧
    (∀ (df : DataFrame) (phenotype : String) (ctx : Context) (bcfg : BioFitConfig)
        (w_tri w_bio : ℝ) (colTerm colGenes : String)
        (colOverlap colPadj colOr colCs colP : Option String) (i : ℕ) (rec : List Cell),
      ∃ c, (buildRow df phenotype ctx bcfg w_tri w_bio colTerm colGenes colOverlap
          colPadj colOr colCs colP i rec).combined_pre_gpt_score = some c ∧
        0 ≤ c ∧ c ≤ 100) := by
  refine ⟨?_, ?_, ?_⟩
  · intro padj oddsRat combScore k
    exact clip_mem (by norm_num) _
  · intro term genes k phenotype ctx cfg
    obtain ⟨x, hx⟩ := biofit_score_eq_clip term genes k phenotype ctx cfg
    rw [hx]
    exact clip_mem (by norm_num) x
  · intro df phenotype ctx bcfg w_tri w_bio colTerm colGenes colOverlap colPadj
      colOr colCs colP i rec
    refine ⟨_, rfl, le_max_left 0 _, ?_⟩
    exact max_le (by norm_num) (min_le_left _ _)

/-! ## C3: validation of required columns -/

/-- C3: the call fails (returning an error, hence no partial result) iff at
least one of the required columns `{term, genes, padj}` cannot be located via
its alias list; the error lists exactly the missing members in that fixed
order together with all columns actually present; in particular a missing
`padj` column is reported by name. -/
theorem C3_missing_columns (df : DataFrame) (cfg : TriageConfig) (phenotype : String)
    (ctx : Context) (bcfg : BioFitConfig) :
    ((∃ e, triage_enrichment_table df cfg phenotype ctx bcfg = Except.error e) ↔
      (pickCol df.columns COL_ALIASES_term = none ∨
       pickCol df.columns COL_ALIASES_genes = none ∨
       pickCol df.columns COL_ALIASES_padj = none)) ∧
    (∀ e, triage_enrichment_table df cfg phenotype ctx bcfg = Except.error e →
      e.missing = ((if pickCol df.columns COL_ALIASES_term = none then ["term"] else []) ++
          (if pickCol df.columns COL_ALIASES_genes = none then ["genes"] else []) ++
          (if pickCol df.columns COL_ALIASES_padj = none then ["padj"] else [])) ∧
      e.found = df.columns) ∧
    (pickCol df.columns COL_ALIASES_padj = none →
      ∃ e, triage_enrichment_table df cfg phenotype ctx bcfg = Except.error e ∧
        "padj" ∈ e.missing) := by
  have hm : triageMissing df =
      ((if pickCol df.columns COL_ALIASES_term = none then ["term"] else []) ++
        (if pickCol df.columns COL_ALIASES_genes = none then ["genes"] else []) ++
        (if pickCol df.columns COL_ALIASES_padj = none then ["padj"] else [])) := by
    unfold triageMissing
    by_cases h1 : pickCol df.columns COL_ALIASES_term = none <;>
      by_cases h2 : pickCol df.columns COL_ALIASES_genes = none <;>
        by_cases h3 : pickCol df.columns COL_ALIASES_padj = none <;>
          simp [h1, h2, h3, List.filterMap]
  have hiff : triageMissing df = [] ↔
      ¬(pickCol df.columns COL_ALIASES_term = none ∨
        pickCol df.columns COL_ALIASES_genes = none ∨
        pickCol df.columns COL_ALIASES_padj = none) := by
    rw [hm]
    by_cases h1 : pickCol df.columns COL_ALIASES_term = none <;>
      by_cases h2 : pickCol df.columns COL_ALIASES_genes = none <;>
        by_cases h3 : pickCol df.columns COL_ALIASES_padj = none <;>
          simp [h1, h2, h3]
  refine ⟨?_, ?_, ?_⟩
  · constructor
    · rintro ⟨e, he⟩
      by_contra hno
      simp only [triage_enrichment_table, if_pos (hiff.mpr hno)] at he
      exact Except.noConfusion he
    · intro hsome
      have hne : ¬ triageMissing df = [] := fun h => (hiff.mp h) hsome
      exact ⟨{ missing := triageMissing df, found := df.columns },
        by simp only [triage_enrichment_table, if_neg hne]⟩
  · intro e he
    by_cases hMiss : triageMissing df = []
    · simp only [triage_enrichment_table, if_pos hMiss] at he
      exact Except.noConfusion he
    · simp only [triage_enrichment_table, if_neg hMiss] at he
      have heq : ({ missing := triageMissing df, found := df.columns } : ValidationError)
          = e := by
        injection he
      rw [← heq]
      exact ⟨hm, rfl⟩
  · intro hpadj
    have hne : ¬ triageMissing df = [] := by
      rw [hm]
      intro hemp
      simp [hpadj] at hemp
    refine ⟨{ missing := triageMissing df, found := df.columns },
      by simp only [triage_enrichment_table, if_neg hne], ?_⟩
    show "padj" ∈ triageMissing df
    rw [hm]
    simp [hpadj]

/-- A table carrying only term and gene columns for the C3 witness. -/
def C3exDf : DataFrame := { columns := ["Term", "Genes"], data := [] }

/-- Witness for C3: the `padj` lookup fails and the error names `padj`. -/
theorem C3_missing_columns_witness :
    pickCol C3exDf.columns COL_ALIASES_padj = none ∧
    ∃ e, triage_enrichment_table C3exDf {} "" {} {} = Except.error e ∧
      "padj" ∈ e.missing :=
  ⟨by decide, (C3_missing_columns C3exDf {} "" {} {}).2.2 (by decide)⟩

theorem clusterFold_map_row_id {α : Type*} [LinearOrder α] (cfg : TriageConfig)
    (xs : List (TRow α)) (cs : List (TCluster α)) :
    ((clusterFold cfg cs xs).2).map TRow.row_id = xs.map TRow.row_id := by
  have h1 : ((clusterFold cfg cs xs).2).map TRow.row_id
      = (((clusterFold cfg cs xs).2).map stripAnn).map TRow.row_id := by
    rw [List.map_map]
    rfl
  rw [h1, clusterFold_map_strip, List.map_map]
  rfl

/-! ## C5: phenotype-dependent weighting of the combined score -/

/-- C5: the combined pre-GPT score of every output row is the clip to
`[0, 100]` of `w_triage * triage_score + w_biofit * biofit_score`, with
weights `(0.40, 0.60)` when the phenotype is non-empty after stripping and
`(0.65, 0.35)` otherwise; the same weights and the phenotype flag appear in
`meta`. -/
theorem C5_combined_weighting (df : DataFrame) (cfg : TriageConfig)
    (phenotype : String) (ctx : Context) (bcfg : BioFitConfig) :
    ((triageTableOk df cfg phenotype ctx bcfg).meta.w_triage,
        (triageTableOk df cfg phenotype ctx bcfg).meta.w_biofit)
      = (if phenotype.trim ≠ "" then ((0.40 : ℝ), (0.60 : ℝ))
         else ((0.65 : ℝ), (0.35 : ℝ))) ∧
    (triageTableOk df cfg phenotype ctx bcfg).meta.has_phenotype
      = (phenotype.trim != "") ∧
    List.Forall
      (fun r : TRow ℝ => r.combined_pre_gpt_score
        = some (max 0 (min 100
            ((triageTableOk df cfg phenotype ctx bcfg).meta.w_triage * r.triage_score
              + (triageTableOk df cfg phenotype ctx bcfg).meta.w_biofit
                * r.biofit_score))))
      (triageTableOk df cfg phenotype ctx bcfg).rows := by
  refine ⟨?_, rfl, ?_⟩
  · show ((1 - wBio phenotype, wBio phenotype) : ℝ × ℝ) = _
    unfold wBio hasPheno
    by_cases hp : phenotype.trim = "" <;>
      simp [hp, Prod.ext_iff] <;> norm_num
  · rw [List.forall_iff_forall_mem]
    intro r' hr'
    obtain ⟨r0, hr0mem, hstrip⟩ := cluster_mem_strip
      (sortByScoreDesc (triageRows df phenotype ctx bcfg)) cfg r' hr'
    have hr0rows : r0 ∈ triageRows df phenotype ctx bcfg :=
      (List.perm_insertionSort _ _).subset hr0mem
    have hc0 := congrArg TRow.combined_pre_gpt_score hstrip
    have htr0 := congrArg TRow.triage_score hstrip
    have hbf0 := congrArg TRow.biofit_score hstrip
    have hc : r'.combined_pre_gpt_score = r0.combined_pre_gpt_score := hc0
    have htr : r'.triage_score = r0.triage_score := htr0
    have hbf : r'.biofit_score = r0.biofit_score := hbf0
    rw [hc, htr, hbf]
    simp only [triageRows] at hr0rows
    obtain ⟨ir, _, hbuild⟩ := List.mem_map.mp hr0rows
    rw [← hbuild]
    rfl

/-! ## C10: truncation on oversized tables -/

/-- C10: when the table has more rows than `max_rows_for_clustering` (and
`cluster_top_n ≤ max_rows_for_clustering`, which holds for the defaults
500 ≤ 4000), the returned `rows` list is exactly the top `cluster_top_n`
rows by combined score, while `meta.n_rows` still reports the full input
count, so the two necessarily disagree. -/
theorem C10_truncation (df : DataFrame) (cfg : TriageConfig) (phenotype : String)
    (ctx : Context) (bcfg : BioFitConfig)
    (h1 : cfg.max_rows_for_clustering < df.data.length)
    (h2 : cfg.cluster_top_n ≤ cfg.max_rows_for_clustering) :
    (triageTableOk df cfg phenotype ctx bcfg).rows.length = cfg.cluster_top_n ∧
    (triageTableOk df cfg phenotype ctx bcfg).meta.n_rows = df.data.length ∧
    (triageTableOk df cfg phenotype ctx bcfg).rows.length
      ≠ (triageTableOk df cfg phenotype ctx bcfg).meta.n_rows ∧
    ((triageTableOk df cfg phenotype ctx bcfg).rows.map TRow.row_id).Perm
      (((sortByScoreDesc (triageRows df phenotype ctx bcfg)).take
          cfg.cluster_top_n).map TRow.row_id) := by
  have hlenR : (triageRows df phenotype ctx bcfg).length = df.data.length := by
    simp [triageRows, List.enum_length]
  have hlenS : (sortByScoreDesc (triageRows df phenotype ctx bcfg)).length
      = df.data.length := by
    rw [sortByScoreDesc_length, hlenR]
  have hne : ¬ (sortByScoreDesc (triageRows df phenotype ctx bcfg)).length = 0 := by
    omega
  have hrows_eq : (triageTableOk df cfg phenotype ctx bcfg).rows
      = (clusterFold cfg []
          (sortByScoreDesc
            (effRows (sortByScoreDesc (triageRows df phenotype ctx bcfg)) cfg))).2 := by
    show (cluster_by_gene_overlap (sortByScoreDesc (triageRows df phenotype ctx bcfg))
        cfg).2 = _
    simp only [cluster_by_gene_overlap, if_neg hne]
  have heff : effRows (sortByScoreDesc (triageRows df phenotype ctx bcfg)) cfg
      = (sortByScoreDesc (sortByScoreDesc (triageRows df phenotype ctx bcfg))).take
          cfg.cluster_top_n := by
    unfold effRows
    rw [if_pos (by omega)]
  have hidem := sortByScoreDesc_idem (triageRows df phenotype ctx bcfg)
  have htake_len : ((sortByScoreDesc (triageRows df phenotype ctx bcfg)).take
      cfg.cluster_top_n).length = cfg.cluster_top_n := by
    rw [List.length_take]
    omega
  have hL : (triageTableOk df cfg phenotype ctx bcfg).rows.length = cfg.cluster_top_n := by
    rw [hrows_eq, clusterFold_length, sortByScoreDesc_length, heff, hidem, htake_len]
  have hN : (triageTableOk df cfg phenotype ctx bcfg).meta.n_rows = df.data.length := by
    show (triageRows df phenotype ctx bcfg).length = df.data.length
    exact hlenR
  refine ⟨hL, hN, by rw [hL, hN]; omega, ?_⟩
  have hmapid : (triageTableOk df cfg phenotype ctx bcfg).rows.map TRow.row_id
      = (sortByScoreDesc ((sortByScoreDesc (triageRows df phenotype ctx bcfg)).take
          cfg.cluster_top_n)).map TRow.row_id := by
    rw [hrows_eq, heff, hidem, clusterFold_map_row_id]
  rw [hmapid]
  exact (List.perm_insertionSort _ _).map TRow.row_id

/-- Table with three (empty) rows for the C10 witness. -/
def C10exDf : DataFrame := { columns := [], data := [[], [], []] }

/-- Small truncating configuration for the C10 witness. -/
def C10exCfg : TriageConfig :=
  { jaccard_threshold := mkRat 35 100, max_rows_for_clustering := 2, cluster_top_n := 1 }

/-- Witness for C10 at a concrete oversized table. -/
theorem C10_truncation_witness :
    C10exCfg.max_rows_for_clustering < C10exDf.data.length ∧
    C10exCfg.cluster_top_n ≤ C10exCfg.max_rows_for_clustering ∧
    ((triageTableOk C10exDf C10exCfg "" {} {}).rows.length = C10exCfg.cluster_top_n ∧
      (triageTableOk C10exDf C10exCfg "" {} {}).meta.n_rows = C10exDf.data.length ∧
      (triageTableOk C10exDf C10exCfg "" {} {}).rows.length
        ≠ (triageTableOk C10exDf C10exCfg "" {} {}).meta.n_rows ∧
      ((triageTableOk C10exDf C10exCfg "" {} {}).rows.map TRow.row_id).Perm
        (((sortByScoreDesc (triageRows C10exDf "" {} {})).take
            C10exCfg.cluster_top_n).map TRow.row_id)) :=
  ⟨by decide, by decide, C10_truncation C10exDf C10exCfg "" {} {} (by decide) (by decide)⟩

/-! ## Program assignment (program_summarizer.py, `assign_program`) -/

/-- `_norm` of program_summarizer.py: lowercase, `_ → " "`, strip (no
whitespace collapse here, unlike biofit's `_norm_text`). -/
def psNorm (s : String) : String := ((lowerStr s).replace ("_") (" ")).trim

/-- `_count_term_hits`. -/
def countTermHits (term : String) (keywords : List String) : ℕ :=
  (keywords.filter (fun k => substrOf k (psNorm term))).length

/-- `ProgramRule`: the lighter rule wrapper, gene regexes embedded as boolean
predicates. -/
structure ProgramRule where
  name : String
  term_keywords : List String
  gene_matchers : List (String → Bool)
  confounder_like : Bool := false

/-- `ProgramSummaryConfig` with its documented defaults
(`mkRat k 100` = the source's decimal literals). -/
structure ProgramSummaryConfig where
  programs : List ProgramRule
  phenotype : String := ""
  other_label : String := "OTHER"
  min_term_hit : ℕ := 1
  min_total_support : ℚ := mkRat 30 100
  w_term : ℚ := mkRat 55 100
  w_gene : ℚ := mkRat 45 100
  top_k_for_mean : ℕ := 5
  w_prog_max : ℚ := mkRat 60 100
  w_prog_mean : ℚ := mkRat 40 100
  confounder_penalty : ℚ := mkRat 20 100

/-- The `debug_info` dict of `assign_program` (`confounder_like` is only
present after the first accepted program, hence the `Option`). -/
structure AssignDbg where
  term_hits : ℕ := 0
  gene_hits : ℕ := 0
  gene_frac : ℚ := 0
  support : ℚ := 0
  confounder_like : Option Bool := none

/-- The weighted support of one program rule:
`w_term * min(1, term_hits/2) + w_gene * min(1, gene_frac/0.35)`. -/
def progSupport (term : String) (genes : List String) (cfg : ProgramSummaryConfig)
    (prog : ProgramRule) : ℚ :=
  let term_hits := countTermHits term prog.term_keywords
  let gene_frac : ℚ := (geneFamilyHits genes prog.gene_matchers : ℚ)
      / (max genes.length 1 : ℚ)
  cfg.w_term * min 1 ((term_hits : ℚ) / 2) + cfg.w_gene * min 1 (gene_frac / (mkRat 35 100))

/-- The loop of `assign_program`: accept a program only when its support is
at least `min_total_support` *and* strictly above the best so far. -/
def assignAux (term : String) (genes : List String) (cfg : ProgramSummaryConfig) :
    List ProgramRule → String × ℚ × AssignDbg → String × ℚ × AssignDbg
  | [], acc => acc
  | p :: ps, acc =>
      if cfg.min_total_support ≤ progSupport term genes cfg p ∧
          acc.2.1 < progSupport term genes cfg p then
        assignAux term genes cfg ps
          (p.name, progSupport term genes cfg p,
           { term_hits := countTermHits term p.term_keywords,
             gene_hits := geneFamilyHits genes p.gene_matchers,
             gene_frac := (geneFamilyHits genes p.gene_matchers : ℚ)
               / (max genes.length 1 : ℚ),
             support := progSupport term genes cfg p,
             confounder_like := some p.confounder_like })
      else assignAux term genes cfg ps acc

/-- `assign_program(term, genes, cfg)`. -/
def assign_program (term : String) (genes : List String)
    (cfg : ProgramSummaryConfig) : String × AssignDbg :=
  let res := assignAux term genes cfg cfg.programs (cfg.other_label, 0, {})
  (res.1, res.2.2)

theorem assignAux_spec (term : String) (genes : List String)
    (cfg : ProgramSummaryConfig) :
    ∀ (l : List ProgramRule) (acc : String × ℚ × AssignDbg),
      (assignAux term genes cfg l acc = acc ∧
        ∀ p ∈ l, ¬(cfg.min_total_support ≤ progSupport term genes cfg p ∧
          acc.2.1 < progSupport term genes cfg p)) ∨
      (∃ j p, l[j]? = some p ∧
        (assignAux term genes cfg l acc).1 = p.name ∧
        (assignAux term genes cfg l acc).2.1 = progSupport term genes cfg p ∧
        cfg.min_total_support ≤ progSupport term genes cfg p ∧
        acc.2.1 < progSupport term genes cfg p ∧
        (∀ (j' : ℕ) (q : ProgramRule), j' < j → l[j']? = some q →
          progSupport term genes cfg q < progSupport term genes cfg p) ∧
        (∀ (j' : ℕ) (q : ProgramRule), j < j' → l[j']? = some q →
          progSupport term genes cfg q ≤ progSupport term genes cfg p)) := by
  intro l
  induction l with
  | nil => intro acc; left; exact ⟨rfl, by simp⟩
  | cons p0 ps ih =>
      intro acc
      by_cases hcase : cfg.min_total_support ≤ progSupport term genes cfg p0 ∧
          acc.2.1 < progSupport term genes cfg p0
      · rcases ih (p0.name, progSupport term genes cfg p0,
          { term_hits := countTermHits term p0.term_keywords,
            gene_hits := geneFamilyHits genes p0.gene_matchers,
            gene_frac := (geneFamilyHits genes p0.gene_matchers : ℚ)
              / (max genes.length 1 : ℚ),
            support := progSupport term genes cfg p0,
            confounder_like := some p0.confounder_like }) with
          ⟨heq, hall⟩ | ⟨j, p, hj, hname, hsupp, hthr, hgt, hlt, hle⟩
        · right
          refine ⟨0, p0, by simp, ?_, ?_, hcase.1, hcase.2, ?_, ?_⟩
          · simp only [assignAux, if_pos hcase, heq]
          · simp only [assignAux, if_pos hcase, heq]
          · intro j' q hj' _
            omega
          · intro j' q hj' hget
            cases j' with
            | zero => omega
            | succ k =>
                have hk : ps[k]? = some q := by simpa using hget
                have hq := hall q (List.mem_iff_getElem?.mpr ⟨k, hk⟩)
                rw [not_and_or] at hq
                rcases hq with h | h
                · exact le_of_lt (lt_of_lt_of_le (not_le.mp h) hcase.1)
                · exact not_lt.mp h
        · right
          refine ⟨j + 1, p, by simpa using hj, ?_, ?_, hthr, lt_trans hcase.2 hgt, ?_, ?_⟩
          · simp only [assignAux, if_pos hcase]
            exact hname
          · simp only [assignAux, if_pos hcase]
            exact hsupp
          · intro j' q hj' hget
            cases j' with
            | zero =>
                have hq : p0 = q := by simpa using hget
                subst hq
                exact hgt
            | succ k => exact hlt k q (by omega) (by simpa using hget)
          · intro j' q hj' hget
            cases j' with
            | zero => omega
            | succ k => exact hle k q (by omega) (by simpa using hget)
      · rcases ih acc with ⟨heq, hall⟩ | ⟨j, p, hj, hname, hsupp, hthr, hgt, hlt, hle⟩
        · left
          refine ⟨?_, ?_⟩
          · simp only [assignAux, if_neg hcase]
            exact heq
          · intro q hq
            rcases List.mem_cons.mp hq with h | h
            · subst h
              exact hcase
            · exact hall q h
        · right
          refine ⟨j + 1, p, by simpa using hj, ?_, ?_, hthr, hgt, ?_, ?_⟩
          · simp only [assignAux, if_neg hcase]
            exact hname
          · simp only [assignAux, if_neg hcase]
            exact hsupp
          · intro j' q hj' hget
            cases j' with
            | zero =>
                have hq : p0 = q := by simpa using hget
                subst hq
                rcases not_and_or.mp hcase with h | h
                · exact lt_of_lt_of_le (not_le.mp h) hthr
                · exact lt_of_le_of_lt (not_lt.mp h) hgt
            | succ k => exact hlt k q (by omega) (by simpa using hget)
          · intro j' q hj' hget
            cases j' with
            | zero => omega
            | succ k => exact hle k q (by omega) (by simpa using hget)

/-- C6: `assign_program` returns a program's name only when that program's
weighted support is at least `min_total_support` and strictly above the
support of every earlier program in the catalogue; when no program reaches
the threshold the row gets `other_label` (`OTHER`). -/
theorem C6_assign_program (term : String) (genes : List String)
    (cfg : ProgramSummaryConfig)
    (hnd : (cfg.programs.map ProgramRule.name).Nodup)
    (hother : cfg.other_label ∉ cfg.programs.map ProgramRule.name) :
    (∀ (i : ℕ) (p : ProgramRule), cfg.programs[i]? = some p →
      (assign_program term genes cfg).1 = p.name →
      cfg.min_total_support ≤ progSupport term genes cfg p ∧
      ∀ (j : ℕ) (q : ProgramRule), j < i → cfg.programs[j]? = some q →
        progSupport term genes cfg q < progSupport term genes cfg p) ∧
    ((∀ p ∈ cfg.programs, progSupport term genes cfg p < cfg.min_total_support) →
      (assign_program term genes cfg).1 = cfg.other_label) := by
  constructor
  · intro i p hip hres
    rcases assignAux_spec term genes cfg cfg.programs (cfg.other_label, 0, {}) with
      ⟨heq, _⟩ | ⟨j, p', hj, hname, _, hthr, _, hlt, _⟩
    · exfalso
      have : (assign_program term genes cfg).1 = cfg.other_label := by
        simp only [assign_program, heq]
      rw [hres] at this
      apply hother
      rw [← this]
      exact List.mem_map_of_mem ProgramRule.name (List.mem_iff_getElem?.mpr ⟨i, hip⟩)
    · have hres' : (assign_program term genes cfg).1 = p'.name := by
        simp only [assign_program]
        exact hname
      have hnames : p.name = p'.name := by
        rw [← hres, hres']
      obtain ⟨hiLen, hig⟩ := List.getElem?_eq_some.mp hip
      have hij : i = j := by
        apply List.getElem?_inj (by simpa using hiLen) hnd
        rw [List.getElem?_map, List.getElem?_map, hip, hj]
        simp [hnames]
      subst hij
      have hpp : p = p' := by
        rw [hip] at hj
        exact Option.some.inj hj
      subst hpp
      exact ⟨hthr, fun j' q hj' hget => hlt j' q hj' hget⟩
  · intro hbelow
    rcases assignAux_spec term genes cfg cfg.programs (cfg.other_label, 0, {}) with
      ⟨heq, _⟩ | ⟨j, p', hj, _, _, hthr, _, _, _⟩
    · simp only [assign_program, heq]
    · exfalso
      have hmem : p' ∈ cfg.programs := List.mem_iff_getElem?.mpr ⟨j, hj⟩
      exact absurd hthr (not_le.mpr (hbelow p' hmem))

/-- First rule of the C6 witness catalogue. -/
def C6exProgA : ProgramRule :=
  { name := "A", term_keywords := ["alpha"], gene_matchers := [] }

/-- Second rule of the C6 witness catalogue. -/
def C6exProgB : ProgramRule :=
  { name := "B", term_keywords := ["beta"], gene_matchers := [] }

/-- Witness configuration for C6. -/
def C6exCfg : ProgramSummaryConfig := { programs := [C6exProgA, C6exProgB] }

/-- Witness for C6 at a concrete two-program catalogue. -/
theorem C6_assign_program_witness :
    (C6exCfg.programs.map ProgramRule.name).Nodup ∧
    C6exCfg.other_label ∉ C6exCfg.programs.map ProgramRule.name ∧
    ((∀ (i : ℕ) (p : ProgramRule), C6exCfg.programs[i]? = some p →
        (assign_program ("alpha term") [] C6exCfg).1 = p.name →
        C6exCfg.min_total_support ≤ progSupport ("alpha term") [] C6exCfg p ∧
        ∀ (j : ℕ) (q : ProgramRule), j < i → C6exCfg.programs[j]? = some q →
          progSupport ("alpha term") [] C6exCfg q
            < progSupport ("alpha term") [] C6exCfg p) ∧
      ((∀ p ∈ C6exCfg.programs,
          progSupport ("alpha term") [] C6exCfg p < C6exCfg.min_total_support) →
        (assign_program ("alpha term") [] C6exCfg).1 = C6exCfg.other_label)) :=
  ⟨by decide, by decide,
    C6_assign_program ("alpha term") [] C6exCfg (by decide) (by decide)⟩

end Enrich
